import Mathlib

/-!
# lgi `gi.c`: Lua wrappers around GIRepository

A shallow embedding of `src/gi.c` (the native Lua wrappers of lgi around
GIRepository) and theorems about it.

The C functions are Lua C functions: they read their arguments from the Lua
stack, call into the introspection library, and push their results.  The
embedding gives each of them the Lean function of the same name.  Its
arguments are the values the C function reads from the stack, and it returns
a `Ret`: the outcome (the pushed value, or the raised error) together with
the trace of reference-count events and collection-accessor calls the C
function performed, in program order.

The introspection library (GIRepository), whose headers are not part of
`src/`, is a parameter: the structure `GIRepository` below lists the library
calls `gi.c` makes, and every theorem holds for every such library.
-/

namespace Lgi

/-! ## Data model -/

/-- A non-null `GIBaseInfo *`: the identity of one introspection record.  A
pointer that may be `NULL` is an `Option Handle`. -/
abbrev Handle := Nat

/-- The library's `GIInfoType` tags, as named in `gi.c`: the tag
`GI_INFO_TYPE_INVALID` tested by `lgi_gi_info_new`, and the nineteen tags of
the `switch` in `info_index`. -/
inductive GIInfoType
  | INVALID
  | FUNCTION
  | CALLBACK
  | STRUCT
  | BOXED
  | ENUM
  | FLAGS
  | OBJECT
  | INTERFACE
  | CONSTANT
  | ERROR_DOMAIN
  | UNION
  | VALUE
  | SIGNAL
  | VFUNC
  | PROPERTY
  | FIELD
  | ARG
  | TYPE
  | UNRESOLVED
  deriving DecidableEq

/-- The library's `GITypeTag`: the five tags `info_index` names, and every
other tag (the basic scalar types, `ERROR`, ...) by its number. -/
inductive GITypeTag
  | ARRAY
  | INTERFACE
  | GLIST
  | GSLIST
  | GHASH
  | other (code : Nat)
  deriving DecidableEq

/-- The library's `GIArrayType`: the four values `info_index` names, and any
other value by its number (the `default:` label of the `switch`). -/
inductive GIArrayType
  | C
  | ARRAY
  | PTR_ARRAY
  | BYTE_ARRAY
  | other (code : Nat)
  deriving DecidableEq

/-- The collection accessors (`InfosItemGet` function pointers) that the
`INFOS` and `INFOS2` macros of `info_index` hand to `infos_new`; the
constructor `struct_field` is `g_struct_info_get_field`, and so on. -/
inductive InfosItemGet
  | struct_field
  | struct_method
  | union_field
  | union_method
  | interface_prerequisite
  | interface_method
  | interface_constant
  | interface_property
  | interface_signal
  | object_interface
  | object_field
  | object_method
  | object_constant
  | object_property
  | object_signal
  | callable_arg
  | enum_value
  deriving DecidableEq

/-- The C `struct _Infos`: userdata for one group of infos. -/
structure Infos where
  info : Handle
  count : Int
  item_get : InfosItemGet
  deriving DecidableEq

/-- A Lua value that is not a table, as far as `gi.c` produces them:
`info h` is a userdata with metatable `lgi.gi.info` storing the pointer `h`,
`infos v` one with metatable `lgi.gi.infos`, `namespace ns` one with
metatable `lgi.gi.namespace`. -/
inductive LuaPrim
  | nil
  | boolean (b : Bool)
  | number (n : Int)
  | string (s : String)
  | info (h : Handle)
  | infos (v : Infos)
  | namespace (ns : String)
  deriving DecidableEq

/-- A Lua table built by `gi.c`: its entries, each key at most once. -/
abbrev LuaTable := List (LuaPrim × LuaPrim)

/-- Table read `t[k]`. -/
def LuaTable.get (t : LuaTable) (k : LuaPrim) : Option LuaPrim :=
  match t with
  | [] => none
  | (k', v) :: rest => if k' = k then some v else LuaTable.get rest k

/-- The table without its entry for the key `k`. -/
def LuaTable.erase (t : LuaTable) (k : LuaPrim) : LuaTable :=
  match t with
  | [] => []
  | (k', v) :: rest =>
    if k' = k then LuaTable.erase rest k else (k', v) :: LuaTable.erase rest k

/-- Table write `t[k] = v` (`lua_settable`, `lua_setfield`, `lua_rawseti`):
a previous entry for `k` is dropped, and a nil `v` stores nothing. -/
def LuaTable.set (t : LuaTable) (k v : LuaPrim) : LuaTable :=
  let t' := LuaTable.erase t k
  if v = LuaPrim.nil then t' else t' ++ [(k, v)]

/-- The keys of a table. -/
def LuaTable.keys (t : LuaTable) : List LuaPrim := t.map Prod.fst

/-- A Lua value pushed by `gi.c`. -/
inductive LuaValue
  | prim (p : LuaPrim)
  | table (t : LuaTable)
  deriving DecidableEq

/-- The second stack argument of an `__index` metamethod, classified the way
`gi.c` classifies it: `number k` is an argument for which `lua_isnumber`
holds (a Lua number, or a string that Lua converts to a number) and for which
`lua_tointeger` returns `k`; `string s` is a string for which `lua_isnumber`
fails, read by `luaL_checkstring`; `other` is any other value, on which
`luaL_checkstring` raises. -/
inductive LuaArg
  | number (k : Int)
  | string (s : String)
  | other
  deriving DecidableEq

/-- The Lua errors `gi.c` raises. -/
inductive LuaError
  /-- Raised by `luaL_argcheck (L, ..., 2, "out of bounds")`. -/
  | out_of_bounds
  /-- Raised by ``luaL_error (L, "%s: `%s' not found", owner, name)``. -/
  | not_found (owner : String) (name : String)
  /-- Raised by `luaL_checkstring` on an argument that is not a string. -/
  | bad_argument
  deriving DecidableEq

/-- How a call of a C function of `gi.c` ends. -/
inductive Outcome
  /-- The function returns one value. -/
  | value (v : LuaValue)
  /-- The function raises a Lua error. -/
  | error (e : LuaError)
  /-- The function reaches `g_assert_not_reached ()`. -/
  | assert_not_reached
  /-- The function executes an operation whose behaviour C leaves undefined. -/
  | undefined
  deriving DecidableEq

/-- One reference-count relevant step of a C function. -/
inductive Event
  /-- The call `g_base_info_ref (h)`. -/
  | ref (h : Handle)
  /-- The call `g_base_info_unref (h)`. -/
  | unref (h : Handle)
  /-- The call `item_get (parent, n)` of a collection accessor, which returned
  `child` together with one new reference on it. -/
  | item_get (n : Int) (child : Handle)
  /-- A library getter (`g_arg_info_get_type`, `g_object_info_get_parent`, ...)
  returned `h` together with one new reference on it. -/
  | obtained (h : Handle)
  deriving DecidableEq

/-- The result of running a C function: outcome and trace. -/
structure Ret where
  out : Outcome
  trace : List Event
  deriving DecidableEq

/-- The outcome that pushes `nil`. -/
def Outcome.nil : Outcome := Outcome.value (LuaValue.prim LuaPrim.nil)

/-- The outcome that pushes a non-table value. -/
def Outcome.prim (p : LuaPrim) : Outcome := Outcome.value (LuaValue.prim p)

/-- The reference counts the library keeps, one per record. -/
abbrev RefCounts := Handle → Int

/-- The effect of one event on the reference counts. -/
def Event.apply (rc : RefCounts) : Event → RefCounts
  | Event.ref h => fun x => if x = h then rc x + 1 else rc x
  | Event.unref h => fun x => if x = h then rc x - 1 else rc x
  | Event.item_get _ child => fun x => if x = child then rc x + 1 else rc x
  | Event.obtained h => fun x => if x = h then rc x + 1 else rc x

/-- The reference counts after a trace, run from the counts `rc`. -/
def runTrace (rc : RefCounts) (tr : List Event) : RefCounts :=
  tr.foldl Event.apply rc

/-- How often a trace releases `h`. -/
def releases (tr : List Event) (h : Handle) : Nat :=
  tr.count (Event.unref h)

/-- The collection-accessor calls of a trace, in order. -/
def accessorCalls (tr : List Event) : List (Int × Handle) :=
  tr.filterMap (fun e => match e with
    | Event.item_get n c => some (n, c)
    | _ => none)

/-- Conversion of a `lua_Integer` to `gint` (a 32-bit `int`), as it happens
where `gi.c` stores `lua_tointeger (L, 2) - 1` in a `gint` or passes it for a
`gint` parameter: the value is reduced modulo `2^32` into `[-2^31, 2^31)`.
The conversion leaves every `gint` value as it is; it changes a value only
where `lua_Integer` is wider than `gint`. -/
def toGint (x : Int) : Int := (x + 2 ^ 31) % 2 ^ 32 - 2 ^ 31

/-- The values of type `gint`. -/
def isGint (x : Int) : Prop := -(2 ^ 31) ≤ x ∧ x < 2 ^ 31

instance (x : Int) : Decidable (isGint x) := by
  unfold isGint; infer_instance

/-- The introspection library as `gi.c` uses it.  The fields carry the names
of the library functions and macros; the one exception is
`lgi_type_get_name`, a function of lgi itself that lives outside `gi.c`: here
it stands for the string that `lua_concat (L, lgi_type_get_name (L, info))`
leaves on the stack. -/
structure GIRepository where
  g_base_info_get_type : Handle → GIInfoType
  /-- The name of a record.  `gi.c` reads it from the children of a view and
  from records that are no type infos, all of which the library names. -/
  g_base_info_get_name : Handle → String
  g_base_info_get_namespace : Handle → String
  g_base_info_is_deprecated : Handle → Bool
  g_base_info_get_container : Handle → Option Handle
  GI_IS_ARG_INFO : Handle → Bool
  GI_IS_CALLABLE_INFO : Handle → Bool
  GI_IS_FUNCTION_INFO : Handle → Bool
  GI_IS_SIGNAL_INFO : Handle → Bool
  GI_IS_VFUNC_INFO : Handle → Bool
  GI_IS_CONSTANT_INFO : Handle → Bool
  GI_IS_ERROR_DOMAIN_INFO : Handle → Bool
  GI_IS_FIELD_INFO : Handle → Bool
  GI_IS_PROPERTY_INFO : Handle → Bool
  GI_IS_REGISTERED_TYPE_INFO : Handle → Bool
  GI_IS_ENUM_INFO : Handle → Bool
  GI_IS_INTERFACE_INFO : Handle → Bool
  GI_IS_OBJECT_INFO : Handle → Bool
  GI_IS_STRUCT_INFO : Handle → Bool
  GI_IS_UNION_INFO : Handle → Bool
  GI_IS_TYPE_INFO : Handle → Bool
  GI_IS_VALUE_INFO : Handle → Bool
  g_arg_info_get_type : Handle → Option Handle
  g_constant_info_get_type : Handle → Option Handle
  g_property_info_get_type : Handle → Option Handle
  g_field_info_get_type : Handle → Option Handle
  g_registered_type_info_get_g_type : Handle → Int
  g_struct_info_is_gtype_struct : Handle → Bool
  g_object_info_get_parent : Handle → Option Handle
  g_callable_info_get_return_type : Handle → Option Handle
  g_signal_info_get_flags : Handle → Nat
  g_function_info_get_flags : Handle → Nat
  g_enum_info_get_storage_type : Handle → GITypeTag
  g_value_info_get_value : Handle → Int
  g_type_info_get_tag : Handle → GITypeTag
  g_type_info_get_param_type : Handle → Int → Option Handle
  g_type_info_get_interface : Handle → Option Handle
  g_type_info_get_array_type : Handle → GIArrayType
  g_type_tag_to_string : GITypeTag → String
  G_TYPE_TAG_IS_BASIC : GITypeTag → Bool
  /-- The count function the `INFOS` macros pair with an accessor, such as
  `g_struct_info_get_n_fields` with `g_struct_info_get_field`. -/
  get_n : InfosItemGet → Handle → Int
  /-- The accessor itself; it returns a new reference to the child. -/
  get_item : InfosItemGet → Handle → Int → Handle
  /-- The qualified name of a record, as `lgi_type_get_name` and `lua_concat`
  build it. -/
  lgi_type_get_name : Handle → String
  g_irepository_get_n_infos : String → Int
  g_irepository_get_info : String → Int → Option Handle
  g_irepository_get_dependencies : String → Option (List String)
  g_irepository_get_version : String → String
  g_irepository_find_by_name : String → String → Option Handle

/-! ## `lgi_gi_info_new` and the `lgi.gi.infos` userdata -/

/-- The C function `lgi_gi_info_new` (lines 17-41). -/
def lgi_gi_info_new (L : GIRepository) (info : Option Handle) : Ret :=
  match info with
  | some h =>
    if L.g_base_info_get_type h = GIInfoType.INVALID then
      ⟨Outcome.nil, [Event.unref h]⟩
    else
      ⟨Outcome.prim (LuaPrim.info h), []⟩
  | none => ⟨Outcome.nil, []⟩

/-- The C function `infos_len` (lines 53-59). -/
def infos_len (infos : Infos) : Ret :=
  ⟨Outcome.prim (LuaPrim.number infos.count), []⟩

/-- The `for` loop of `infos_index` (lines 75-82) from the index `n` on, with
`todo` iterations left, followed by the error of lines 84-85. -/
def infos_index_scan (L : GIRepository) (infos : Infos) (name : String) :
    (n : Nat) → (todo : Nat) → Ret
  | _, 0 =>
    ⟨Outcome.error (LuaError.not_found (L.lgi_type_get_name infos.info) name), []⟩
  | n, todo + 1 =>
    let info := L.get_item infos.item_get infos.info n
    if L.g_base_info_get_name info = name then
      let r := lgi_gi_info_new L (some info)
      ⟨r.out, Event.item_get n info :: r.trace⟩
    else
      let r := infos_index_scan L infos name (n + 1) todo
      ⟨r.out, Event.item_get n info :: Event.unref info :: r.trace⟩

/-- The C function `infos_index` (lines 61-87).  The loop runs for
`n = 0, ..., count - 1`, that is `count.toNat` times. -/
def infos_index (L : GIRepository) (infos : Infos) (key : LuaArg) : Ret :=
  match key with
  | LuaArg.number k =>
    let n := toGint (k - 1)
    if n ≥ 0 ∧ n < infos.count then
      let info := L.get_item infos.item_get infos.info n
      let r := lgi_gi_info_new L (some info)
      ⟨r.out, Event.item_get n info :: r.trace⟩
    else
      ⟨Outcome.error LuaError.out_of_bounds, []⟩
  | LuaArg.string name => infos_index_scan L infos name 0 infos.count.toNat
  | LuaArg.other => ⟨Outcome.error LuaError.bad_argument, []⟩

/-- The C function `infos_gc` (lines 89-95). -/
def infos_gc (infos : Infos) : List Event := [Event.unref infos.info]

/-- The C function `infos_new` (lines 98-108). -/
def infos_new (info : Handle) (count : Int) (item_get : InfosItemGet) : Ret :=
  ⟨Outcome.prim (LuaPrim.infos ⟨info, count, item_get⟩), [Event.ref info]⟩

/-! ## `info_index`: the property dispatcher of the `lgi.gi.info` userdata -/

/-! The bits of `GSignalFlags` (GLib header `gsignal.h`) and of
`GIFunctionInfoFlags` (library header `gitypes.h`) carry the values of those
headers, which are not part of `src/`. -/

/-- The library constant `G_SIGNAL_RUN_FIRST` (`1 << 0` in `gsignal.h`). -/
def G_SIGNAL_RUN_FIRST : Nat := 1
/-- The library constant `G_SIGNAL_RUN_LAST` (`1 << 1`). -/
def G_SIGNAL_RUN_LAST : Nat := 2
/-- The library constant `G_SIGNAL_RUN_CLEANUP` (`1 << 2`). -/
def G_SIGNAL_RUN_CLEANUP : Nat := 4
/-- The library constant `G_SIGNAL_NO_RECURSE` (`1 << 3`). -/
def G_SIGNAL_NO_RECURSE : Nat := 8
/-- The library constant `G_SIGNAL_DETAILED` (`1 << 4`). -/
def G_SIGNAL_DETAILED : Nat := 16
/-- The library constant `G_SIGNAL_ACTION` (`1 << 5`). -/
def G_SIGNAL_ACTION : Nat := 32
/-- The library constant `G_SIGNAL_NO_HOOKS` (`1 << 6`). -/
def G_SIGNAL_NO_HOOKS : Nat := 64

/-- The library constant `GI_FUNCTION_IS_METHOD` (`1 << 0` in `gitypes.h`). -/
def GI_FUNCTION_IS_METHOD : Nat := 1
/-- The library constant `GI_FUNCTION_IS_CONSTRUCTOR` (`1 << 1`). -/
def GI_FUNCTION_IS_CONSTRUCTOR : Nat := 2
/-- The library constant `GI_FUNCTION_IS_GETTER` (`1 << 2`). -/
def GI_FUNCTION_IS_GETTER : Nat := 4
/-- The library constant `GI_FUNCTION_IS_SETTER` (`1 << 3`). -/
def GI_FUNCTION_IS_SETTER : Nat := 8
/-- The library constant `GI_FUNCTION_WRAPS_VFUNC` (`1 << 4`). -/
def GI_FUNCTION_WRAPS_VFUNC : Nat := 16
/-- The library constant `GI_FUNCTION_THROWS` (`1 << 5`). -/
def GI_FUNCTION_THROWS : Nat := 32

/-- The statement `lua_pushboolean (L, 1); lua_setfield (L, -2, name);` on the
table `t`. -/
def setflag (t : LuaTable) (name : String) : LuaTable :=
  t.set (LuaPrim.string name) (LuaPrim.boolean true)

/-- The strings of the `switch` over `g_base_info_get_type (*info)` (lines
137-166); `none` is the `default:` label. -/
def info_type_string : GIInfoType → Option String
  | GIInfoType.FUNCTION => some "function"
  | GIInfoType.CALLBACK => some "callback"
  | GIInfoType.STRUCT => some "struct"
  | GIInfoType.BOXED => some "boxed"
  | GIInfoType.ENUM => some "enum"
  | GIInfoType.FLAGS => some "flags"
  | GIInfoType.OBJECT => some "object"
  | GIInfoType.INTERFACE => some "interface"
  | GIInfoType.CONSTANT => some "constant"
  | GIInfoType.ERROR_DOMAIN => some "error_domain"
  | GIInfoType.UNION => some "union"
  | GIInfoType.VALUE => some "value"
  | GIInfoType.SIGNAL => some "signal"
  | GIInfoType.VFUNC => some "vfunc"
  | GIInfoType.PROPERTY => some "property"
  | GIInfoType.FIELD => some "field"
  | GIInfoType.ARG => some "arg"
  | GIInfoType.TYPE => some "type"
  | GIInfoType.UNRESOLVED => some "unresolved"
  | GIInfoType.INVALID => none

/-- The return of a value without any reference-count event. -/
def push (p : LuaPrim) : Option Ret := some ⟨Outcome.prim p, []⟩

/-- The expansion of `INFOS (n1, n2)` and of `INFOS2 (n1, n2, n3)` once the
property name matched: `return infos_new (L, *info, count (*info), get)`. -/
def INFOS (L : GIRepository) (info : Handle) (get : InfosItemGet) : Option Ret :=
  some (infos_new info (L.get_n get info) get)

/-- Lines 135-167 of `info_index`: the property `type`.  The result `none`
means that control reaches the next statement. -/
def info_index_type (L : GIRepository) (info : Handle) (prop : String) : Option Ret :=
  if prop = "type" then
    match info_type_string (L.g_base_info_get_type info) with
    | some s => push (LuaPrim.string s)
    | none => some ⟨Outcome.assert_not_reached, []⟩
  else none

/-- Lines 169-192 of `info_index`: the `is_` properties. -/
def info_index_is (L : GIRepository) (info : Handle) (prop : String) : Option Ret :=
  if prop = "is_arg" then push (LuaPrim.boolean (L.GI_IS_ARG_INFO info))
  else if prop = "is_callable" then push (LuaPrim.boolean (L.GI_IS_CALLABLE_INFO info))
  else if prop = "is_function" then push (LuaPrim.boolean (L.GI_IS_FUNCTION_INFO info))
  else if prop = "is_signal" then push (LuaPrim.boolean (L.GI_IS_SIGNAL_INFO info))
  else if prop = "is_vfunc" then push (LuaPrim.boolean (L.GI_IS_VFUNC_INFO info))
  else if prop = "is_constant" then push (LuaPrim.boolean (L.GI_IS_CONSTANT_INFO info))
  else if prop = "is_error_domain" then
    push (LuaPrim.boolean (L.GI_IS_ERROR_DOMAIN_INFO info))
  else if prop = "is_field" then push (LuaPrim.boolean (L.GI_IS_FIELD_INFO info))
  else if prop = "is_property" then push (LuaPrim.boolean (L.GI_IS_PROPERTY_INFO info))
  else if prop = "is_registered_type" then
    push (LuaPrim.boolean (L.GI_IS_REGISTERED_TYPE_INFO info))
  else if prop = "is_enum" then push (LuaPrim.boolean (L.GI_IS_ENUM_INFO info))
  else if prop = "is_interface" then push (LuaPrim.boolean (L.GI_IS_INTERFACE_INFO info))
  else if prop = "is_object" then push (LuaPrim.boolean (L.GI_IS_OBJECT_INFO info))
  else if prop = "is_struct" then push (LuaPrim.boolean (L.GI_IS_STRUCT_INFO info))
  else if prop = "is_union" then push (LuaPrim.boolean (L.GI_IS_UNION_INFO info))
  else if prop = "is_type" then push (LuaPrim.boolean (L.GI_IS_TYPE_INFO info))
  else if prop = "is_value" then push (LuaPrim.boolean (L.GI_IS_VALUE_INFO info))
  else none

/-- Lines 194-206 of `info_index`: `name` and `namespace`. -/
def info_index_name (L : GIRepository) (info : Handle) (prop : String) : Option Ret :=
  if ¬ L.GI_IS_TYPE_INFO info then
    if prop = "name" then push (LuaPrim.string (L.g_base_info_get_name info))
    else if prop = "namespace" then push (LuaPrim.string (L.g_base_info_get_namespace info))
    else none
  else none

/-- Lines 208-212 of `info_index`: `fullname`. -/
def info_index_fullname (L : GIRepository) (info : Handle) (prop : String) : Option Ret :=
  if prop = "fullname" then push (LuaPrim.string (L.lgi_type_get_name info))
  else none

/-- Lines 228-236 of `info_index`: the type info `ti` of an arg, constant,
property or field, `NULL` for anything else. -/
def info_index_ti (L : GIRepository) (info : Handle) : Option Handle :=
  if L.GI_IS_ARG_INFO info then L.g_arg_info_get_type info
  else if L.GI_IS_CONSTANT_INFO info then L.g_constant_info_get_type info
  else if L.GI_IS_PROPERTY_INFO info then L.g_property_info_get_type info
  else if L.GI_IS_FIELD_INFO info then L.g_field_info_get_type info
  else none

/-- Wrapping of a pointer that a library getter returned with a new
reference: `return lgi_gi_info_new (L, getter (*info))`. -/
def new_obtained (L : GIRepository) (p : Option Handle) : Ret :=
  match p with
  | some h =>
    let r := lgi_gi_info_new L (some h)
    ⟨r.out, Event.obtained h :: r.trace⟩
  | none => lgi_gi_info_new L none

/-- Lines 214-240 of `info_index`: `deprecated`, `container`, `typeinfo`. -/
def info_index_base (L : GIRepository) (info : Handle) (prop : String) : Option Ret :=
  if prop = "deprecated" then push (LuaPrim.boolean (L.g_base_info_is_deprecated info))
  else if prop = "container" then
    match L.g_base_info_get_container info with
    | some container =>
      let r := lgi_gi_info_new L (some container)
      some ⟨r.out, Event.ref container :: r.trace⟩
    | none => some (lgi_gi_info_new L none)
  else if prop = "typeinfo" then
    match info_index_ti L info with
    | some ti => some (new_obtained L (some ti))
    | none => none
  else none

/-- Lines 242-285 of `info_index`: the registered types. -/
def info_index_registered (L : GIRepository) (info : Handle) (prop : String) : Option Ret :=
  if L.GI_IS_REGISTERED_TYPE_INFO info then
    if prop = "gtype" then
      push (LuaPrim.number (L.g_registered_type_info_get_g_type info))
    else if L.GI_IS_STRUCT_INFO info then
      if prop = "is_gtype_struct" then
        push (LuaPrim.boolean (L.g_struct_info_is_gtype_struct info))
      else if prop = "fields" then INFOS L info InfosItemGet.struct_field
      else if prop = "methods" then INFOS L info InfosItemGet.struct_method
      else none
    else if L.GI_IS_UNION_INFO info then
      if prop = "fields" then INFOS L info InfosItemGet.union_field
      else if prop = "methods" then INFOS L info InfosItemGet.union_method
      else none
    else if L.GI_IS_INTERFACE_INFO info then
      if prop = "prerequisites" then INFOS L info InfosItemGet.interface_prerequisite
      else if prop = "methods" then INFOS L info InfosItemGet.interface_method
      else if prop = "constants" then INFOS L info InfosItemGet.interface_constant
      else if prop = "properties" then INFOS L info InfosItemGet.interface_property
      else if prop = "signals" then INFOS L info InfosItemGet.interface_signal
      else none
    else if L.GI_IS_OBJECT_INFO info then
      if prop = "parent" then some (new_obtained L (L.g_object_info_get_parent info))
      else if prop = "interfaces" then INFOS L info InfosItemGet.object_interface
      else if prop = "fields" then INFOS L info InfosItemGet.object_field
      else if prop = "methods" then INFOS L info InfosItemGet.object_method
      else if prop = "constants" then INFOS L info InfosItemGet.object_constant
      else if prop = "properties" then INFOS L info InfosItemGet.object_property
      else if prop = "signals" then INFOS L info InfosItemGet.object_signal
      else none
    else none
  else none

/-- Lines 298-312 of `info_index`: the table built from the signal flags.
The expansions of `H` are the arms of one `if (0); else if ... else if ...`
statement. -/
def signal_flags_table (flags : Nat) : LuaTable :=
  let t : LuaTable := []
  if False then t
  else if flags &&& G_SIGNAL_RUN_FIRST ≠ 0 then setflag t "run_first"
  else if flags &&& G_SIGNAL_RUN_LAST ≠ 0 then setflag t "run_last"
  else if flags &&& G_SIGNAL_RUN_CLEANUP ≠ 0 then setflag t "run_cleanup"
  else if flags &&& G_SIGNAL_NO_RECURSE ≠ 0 then setflag t "no_recurse"
  else if flags &&& G_SIGNAL_DETAILED ≠ 0 then setflag t "detailed"
  else if flags &&& G_SIGNAL_ACTION ≠ 0 then setflag t "action"
  else if flags &&& G_SIGNAL_NO_HOOKS ≠ 0 then setflag t "no_hooks"
  else t

/-- Lines 323-336 of `info_index`: the table built from the function flags,
again the arms of one `if (0); else if ... else if ...` statement. -/
def function_flags_table (flags : Nat) : LuaTable :=
  let t : LuaTable := []
  if False then t
  else if flags &&& GI_FUNCTION_IS_METHOD ≠ 0 then setflag t "is_method"
  else if flags &&& GI_FUNCTION_IS_CONSTRUCTOR ≠ 0 then setflag t "is_constructor"
  else if flags &&& GI_FUNCTION_IS_GETTER ≠ 0 then setflag t "is_getter"
  else if flags &&& GI_FUNCTION_IS_SETTER ≠ 0 then setflag t "is_setter"
  else if flags &&& GI_FUNCTION_WRAPS_VFUNC ≠ 0 then setflag t "wraps_vfunc"
  else if flags &&& GI_FUNCTION_THROWS ≠ 0 then setflag t "throws"
  else t

/-- Lines 293-316 of `info_index`: the `flags` of a signal. -/
def info_index_signal (L : GIRepository) (info : Handle) (prop : String) : Option Ret :=
  if L.GI_IS_SIGNAL_INFO info then
    if prop = "flags" then
      some ⟨Outcome.value (LuaValue.table
        (signal_flags_table (L.g_signal_info_get_flags info))), []⟩
    else none
  else none

/-- Lines 318-340 of `info_index`: the `flags` of a function. -/
def info_index_function (L : GIRepository) (info : Handle) (prop : String) : Option Ret :=
  if L.GI_IS_FUNCTION_INFO info then
    if prop = "flags" then
      some ⟨Outcome.value (LuaValue.table
        (function_flags_table (L.g_function_info_get_flags info))), []⟩
    else none
  else none

/-- Lines 287-341 of `info_index`: the callables. -/
def info_index_callable (L : GIRepository) (info : Handle) (prop : String) : Option Ret :=
  if L.GI_IS_CALLABLE_INFO info then
    if prop = "return_type" then
      some (new_obtained L (L.g_callable_info_get_return_type info))
    else if prop = "args" then INFOS L info InfosItemGet.callable_arg
    else
      (info_index_signal L info prop).orElse fun _ => info_index_function L info prop
  else none

/-- Lines 343-352 of `info_index`: the enums. -/
def info_index_enum (L : GIRepository) (info : Handle) (prop : String) : Option Ret :=
  if L.GI_IS_ENUM_INFO info then
    if prop = "storage" then
      push (LuaPrim.string (L.g_type_tag_to_string (L.g_enum_info_get_storage_type info)))
    else if prop = "values" then INFOS L info InfosItemGet.enum_value
    else none
  else none

/-- Lines 354-361 of `info_index`: the enum values. -/
def info_index_value (L : GIRepository) (info : Handle) (prop : String) : Option Ret :=
  if L.GI_IS_VALUE_INFO info then
    if prop = "value" then push (LuaPrim.number (L.g_value_info_get_value info))
    else none
  else none

/-- The value `lgi_gi_info_new` leaves on the stack, as a table entry. -/
def Outcome.toPrim : Outcome → LuaPrim
  | Outcome.value (LuaValue.prim p) => p
  | _ => LuaPrim.nil

/-- Lines 381-389 of `info_index`: the table of the parameter types. -/
def info_index_params (L : GIRepository) (info : Handle) (tag : GITypeTag) : Ret :=
  let t : LuaTable := []
  let r1 := new_obtained L (L.g_type_info_get_param_type info 0)
  let t := t.set (LuaPrim.number 1) r1.out.toPrim
  if tag = GITypeTag.GHASH then
    let r2 := new_obtained L (L.g_type_info_get_param_type info 1)
    let t := t.set (LuaPrim.number 2) r2.out.toPrim
    ⟨Outcome.value (LuaValue.table t), r1.trace ++ r2.trace⟩
  else
    ⟨Outcome.value (LuaValue.table t), r1.trace⟩

/-- Lines 363-415 of `info_index`: the type infos. -/
def info_index_typeinfo (L : GIRepository) (info : Handle) (prop : String) : Option Ret :=
  if L.GI_IS_TYPE_INFO info then
    let tag := L.g_type_info_get_tag info
    if prop = "tag" then push (LuaPrim.string (L.g_type_tag_to_string tag))
    else if prop = "is_basic" then push (LuaPrim.boolean (L.G_TYPE_TAG_IS_BASIC tag))
    else if prop = "params" then
      if tag = GITypeTag.ARRAY ∨ tag = GITypeTag.GLIST ∨
          tag = GITypeTag.GSLIST ∨ tag = GITypeTag.GHASH then
        some (info_index_params L info tag)
      else none
    else if prop = "interface" ∧ tag = GITypeTag.INTERFACE then
      some (new_obtained L (L.g_type_info_get_interface info))
    else if prop = "array_type" ∧ tag = GITypeTag.ARRAY then
      match L.g_type_info_get_array_type info with
      | GIArrayType.C => push (LuaPrim.string "c")
      | GIArrayType.ARRAY => push (LuaPrim.string "array")
      | GIArrayType.PTR_ARRAY => push (LuaPrim.string "ptr_array")
      | GIArrayType.BYTE_ARRAY => push (LuaPrim.string "byte_array")
      | GIArrayType.other _ => some ⟨Outcome.assert_not_reached, []⟩
    else none
  else none

/-- The C function `info_index` (lines 117-422), with `prop` the string
`luaL_checkstring (L, 2)` returns.  The statements of the function body run in
order until one returns; when none does, lines 417-418 push nil. -/
def info_index (L : GIRepository) (info : Handle) (prop : String) : Ret :=
  ((info_index_type L info prop).orElse fun _ =>
   (info_index_is L info prop).orElse fun _ =>
   (info_index_name L info prop).orElse fun _ =>
   (info_index_fullname L info prop).orElse fun _ =>
   (info_index_base L info prop).orElse fun _ =>
   (info_index_registered L info prop).orElse fun _ =>
   (info_index_callable L info prop).orElse fun _ =>
   (info_index_enum L info prop).orElse fun _ =>
   (info_index_value L info prop).orElse fun _ =>
   info_index_typeinfo L info prop).getD ⟨Outcome.nil, []⟩

/-- The C function `info_gc` (lines 424-430). -/
def info_gc (info : Handle) : List Event := [Event.unref info]

/-! ## The `lgi.gi.namespace` userdata -/

/-- The C function `namespace_len` (lines 441-447).  The sum of the
library's symbol count and one is a sum of two `gint` values with a `gint`
result: it is reduced into `[-2^31, 2^31)`, as the machine addition does. -/
def namespace_len (L : GIRepository) (ns : String) : Ret :=
  ⟨Outcome.prim (LuaPrim.number (toGint (L.g_irepository_get_n_infos ns + 1))), []⟩

/-- The C library function `strchr` on the characters `s.data` of a string:
the offset of the first occurrence of `c`, `none` for the `NULL` result. -/
def strchr : List Char → Char → Option Nat
  | [], _ => none
  | x :: xs, c => if x = c then some 0 else (strchr xs c).map (· + 1)

/-- The `for` loop of `namespace_index` over the entries of `deps` (lines
471-477), run on the table `t`.  With `sep` the `NULL` pointer the length
`sep - *dep` is not defined: the result is `none`. -/
def namespace_index_deps : List String → LuaTable → Option LuaTable
  | [], t => some t
  | dep :: deps, t =>
    match strchr dep.data '-' with
    | some sep =>
      namespace_index_deps deps
        (t.set (LuaPrim.string (String.mk (dep.data.take sep)))
          (LuaPrim.string (String.mk (dep.data.drop (sep + 1)))))
    | none => none

/-- The C function `namespace_index` (lines 449-491). -/
def namespace_index (L : GIRepository) (ns : String) (key : LuaArg) : Ret :=
  match key with
  | LuaArg.number k =>
    new_obtained L (L.g_irepository_get_info ns (toGint (k - 1)))
  | LuaArg.string prop =>
    if prop = "dependencies" then
      match L.g_irepository_get_dependencies ns with
      | none => ⟨Outcome.nil, []⟩
      | some deps =>
        match namespace_index_deps deps [] with
        | some t => ⟨Outcome.value (LuaValue.table t), []⟩
        | none => ⟨Outcome.undefined, []⟩
    else if prop = "version" then
      ⟨Outcome.prim (LuaPrim.string (L.g_irepository_get_version ns)), []⟩
    else
      new_obtained L (L.g_irepository_find_by_name ns prop)
  | LuaArg.other => ⟨Outcome.error LuaError.bad_argument, []⟩

/-- The C function `namespace_new` (lines 493-501). -/
def namespace_new (ns : String) : Ret :=
  ⟨Outcome.prim (LuaPrim.namespace ns), []⟩

/-! ## A small library for concrete instances

The namespace `Demo` holds the function `frob` (handle 1), the signal
`changed` (handle 2), the struct `Box` (handle 3) with the fields `x`, `y`,
`y` (handles 10, 11, 12), an unresolved record (handle 4), a record of
invalid type (handle 5) and a type info (handle 20).  The capability macros
compare the type tag as the library headers do.  The dependency lists of the
namespaces `Demo`, `Twice` and `Bare` are `GLib-2.0, my-lib-1.0`, then
`GLib-1.0, GLib-2.0`, then `GLib`; any other namespace has none.  The
namespace `Huge` reports `2^31 - 1` symbols, any other namespace five. -/

/-- The type tags of the demo records. -/
def demoType : Handle → GIInfoType
  | 1 => GIInfoType.FUNCTION
  | 2 => GIInfoType.SIGNAL
  | 3 => GIInfoType.STRUCT
  | 4 => GIInfoType.UNRESOLVED
  | 10 => GIInfoType.FIELD
  | 11 => GIInfoType.FIELD
  | 12 => GIInfoType.FIELD
  | 20 => GIInfoType.TYPE
  | _ => GIInfoType.INVALID

/-- The names of the demo records. -/
def demoName : Handle → String
  | 1 => "frob"
  | 2 => "changed"
  | 3 => "Box"
  | 10 => "x"
  | 11 => "y"
  | 12 => "y"
  | _ => ""

/-- The demo library. -/
def demoRepo : GIRepository where
  g_base_info_get_type := demoType
  g_base_info_get_name := demoName
  g_base_info_get_namespace := fun _ => "Demo"
  g_base_info_is_deprecated := fun _ => false
  g_base_info_get_container := fun h => if h = 10 ∨ h = 11 ∨ h = 12 then some 3 else none
  GI_IS_ARG_INFO := fun h => demoType h = GIInfoType.ARG
  GI_IS_CALLABLE_INFO := fun h =>
    demoType h = GIInfoType.FUNCTION ∨ demoType h = GIInfoType.CALLBACK ∨
    demoType h = GIInfoType.SIGNAL ∨ demoType h = GIInfoType.VFUNC
  GI_IS_FUNCTION_INFO := fun h => demoType h = GIInfoType.FUNCTION
  GI_IS_SIGNAL_INFO := fun h => demoType h = GIInfoType.SIGNAL
  GI_IS_VFUNC_INFO := fun h => demoType h = GIInfoType.VFUNC
  GI_IS_CONSTANT_INFO := fun h => demoType h = GIInfoType.CONSTANT
  GI_IS_ERROR_DOMAIN_INFO := fun h => demoType h = GIInfoType.ERROR_DOMAIN
  GI_IS_FIELD_INFO := fun h => demoType h = GIInfoType.FIELD
  GI_IS_PROPERTY_INFO := fun h => demoType h = GIInfoType.PROPERTY
  GI_IS_REGISTERED_TYPE_INFO := fun h =>
    demoType h = GIInfoType.BOXED ∨ demoType h = GIInfoType.ENUM ∨
    demoType h = GIInfoType.FLAGS ∨ demoType h = GIInfoType.INTERFACE ∨
    demoType h = GIInfoType.OBJECT ∨ demoType h = GIInfoType.STRUCT ∨
    demoType h = GIInfoType.UNION
  GI_IS_ENUM_INFO := fun h =>
    demoType h = GIInfoType.ENUM ∨ demoType h = GIInfoType.FLAGS
  GI_IS_INTERFACE_INFO := fun h => demoType h = GIInfoType.INTERFACE
  GI_IS_OBJECT_INFO := fun h => demoType h = GIInfoType.OBJECT
  GI_IS_STRUCT_INFO := fun h => demoType h = GIInfoType.STRUCT
  GI_IS_UNION_INFO := fun h => demoType h = GIInfoType.UNION
  GI_IS_TYPE_INFO := fun h => demoType h = GIInfoType.TYPE
  GI_IS_VALUE_INFO := fun h => demoType h = GIInfoType.VALUE
  g_arg_info_get_type := fun _ => none
  g_constant_info_get_type := fun _ => none
  g_property_info_get_type := fun _ => none
  g_field_info_get_type := fun _ => some 20
  g_registered_type_info_get_g_type := fun _ => 0
  g_struct_info_is_gtype_struct := fun _ => false
  g_object_info_get_parent := fun _ => none
  g_callable_info_get_return_type := fun _ => some 20
  g_signal_info_get_flags := fun _ => G_SIGNAL_RUN_LAST ||| G_SIGNAL_DETAILED
  g_function_info_get_flags := fun _ => GI_FUNCTION_IS_METHOD ||| GI_FUNCTION_THROWS
  g_enum_info_get_storage_type := fun _ => GITypeTag.other 0
  g_value_info_get_value := fun _ => 0
  g_type_info_get_tag := fun _ => GITypeTag.other 0
  g_type_info_get_param_type := fun _ _ => none
  g_type_info_get_interface := fun _ => none
  g_type_info_get_array_type := fun _ => GIArrayType.C
  g_type_tag_to_string := fun _ => "void"
  G_TYPE_TAG_IS_BASIC := fun _ => true
  get_n := fun get h =>
    if get = InfosItemGet.struct_field ∧ h = 3 then 3 else 0
  get_item := fun _ _ n => (10 + n).toNat
  lgi_type_get_name := fun h => "Demo." ++ demoName h
  g_irepository_get_n_infos := fun ns => if ns = "Huge" then 2147483647 else 5
  g_irepository_get_info := fun _ n => if 0 ≤ n ∧ n < 5 then some (n + 1).toNat else none
  g_irepository_get_dependencies := fun ns =>
    if ns = "Demo" then some ["GLib-2.0", "my-lib-1.0"]
    else if ns = "Twice" then some ["GLib-1.0", "GLib-2.0"]
    else if ns = "Bare" then some ["GLib"]
    else none
  g_irepository_get_version := fun _ => "1.0"
  g_irepository_find_by_name := fun _ name =>
    if name = "frob" then some 1 else if name = "changed" then some 2
    else if name = "Box" then some 3 else none

/-- The `fields` view of the demo struct `Box`. -/
def demoFields : Infos := ⟨3, 3, InfosItemGet.struct_field⟩

/-! ## Auxiliary definitions for the statements -/

/-- The events of a scan that obtains and releases the children at the
indices `start, ..., start + len - 1` of a view. -/
def scanReleased (L : GIRepository) (infos : Infos) (start len : Nat) : List Event :=
  (List.range' start len).flatMap fun i =>
    [Event.item_get i (L.get_item infos.item_get infos.info i),
     Event.unref (L.get_item infos.item_get infos.info i)]

/-- The property names that occur in `info_index`. -/
def info_index_names : List String :=
  ["type", "is_arg", "is_callable", "is_function", "is_signal", "is_vfunc",
   "is_constant", "is_error_domain", "is_field", "is_property",
   "is_registered_type", "is_enum", "is_interface", "is_object", "is_struct",
   "is_union", "is_type", "is_value", "name", "namespace", "fullname",
   "deprecated", "container", "typeinfo", "gtype", "is_gtype_struct", "fields",
   "methods", "prerequisites", "constants", "properties", "signals", "parent",
   "interfaces", "return_type", "args", "flags", "storage", "values", "value",
   "tag", "is_basic", "params", "interface", "array_type"]

/-- The nineteen type tags of the `switch` in `info_index`. -/
def info_kinds : List GIInfoType :=
  [GIInfoType.FUNCTION, GIInfoType.CALLBACK, GIInfoType.STRUCT, GIInfoType.BOXED,
   GIInfoType.ENUM, GIInfoType.FLAGS, GIInfoType.OBJECT, GIInfoType.INTERFACE,
   GIInfoType.CONSTANT, GIInfoType.ERROR_DOMAIN, GIInfoType.UNION, GIInfoType.VALUE,
   GIInfoType.SIGNAL, GIInfoType.VFUNC, GIInfoType.PROPERTY, GIInfoType.FIELD,
   GIInfoType.ARG, GIInfoType.TYPE, GIInfoType.UNRESOLVED]

/-- The child the accessor of a view returns for the index `i`. -/
def child (L : GIRepository) (infos : Infos) (i : Nat) : Handle :=
  L.get_item infos.item_get infos.info i

/-- The child at index `i` lies in the range `[0, count)` of the view and has
the name `name`. -/
def matchAt (L : GIRepository) (infos : Infos) (name : String) (i : Nat) : Prop :=
  (i : Int) < infos.count ∧ L.g_base_info_get_name (child L infos i) = name

instance (L : GIRepository) (infos : Infos) (name : String) (i : Nat) :
    Decidable (matchAt L infos name i) := by
  unfold matchAt; infer_instance

/-! ## Lemmas -/


theorem LuaTable.get_append (t1 t2 : LuaTable) (k : LuaPrim) :
    LuaTable.get (t1 ++ t2) k =
      (LuaTable.get t1 k).orElse (fun _ => LuaTable.get t2 k) := by
  induction t1 with
  | nil => simp [LuaTable.get]
  | cons e rest ih =>
    obtain ⟨k', v⟩ := e
    by_cases hk : k' = k
    · simp [LuaTable.get, hk]
    · simp [LuaTable.get, hk, ih]

theorem LuaTable.get_erase_same (t : LuaTable) (k : LuaPrim) :
    LuaTable.get (LuaTable.erase t k) k = none := by
  induction t with
  | nil => simp [LuaTable.get, LuaTable.erase]
  | cons e rest ih =>
    obtain ⟨k', v⟩ := e
    by_cases hk : k' = k
    · simp [LuaTable.erase, hk, ih]
    · simp [LuaTable.erase, hk, LuaTable.get, ih]

theorem LuaTable.get_erase_other (t : LuaTable) (k k' : LuaPrim) (h : k' ≠ k) :
    LuaTable.get (LuaTable.erase t k) k' = LuaTable.get t k' := by
  induction t with
  | nil => simp [LuaTable.get, LuaTable.erase]
  | cons e rest ih =>
    obtain ⟨k0, v⟩ := e
    by_cases hk : k0 = k
    · have hne : ¬ k = k' := fun e => h e.symm
      simp [LuaTable.erase, hk, LuaTable.get, ih, hne]
    · by_cases hk' : k0 = k'
      · subst hk'
        simp [LuaTable.erase, hk, LuaTable.get]
      · simp [LuaTable.erase, hk, LuaTable.get, hk', ih]

theorem LuaTable.get_set_same (t : LuaTable) (k v : LuaPrim) (hv : v ≠ LuaPrim.nil) :
    LuaTable.get (t.set k v) k = some v := by
  simp [LuaTable.set, hv, LuaTable.get_append, LuaTable.get_erase_same, LuaTable.get]

theorem LuaTable.get_set_other (t : LuaTable) (k k' v : LuaPrim) (h : k' ≠ k) :
    LuaTable.get (t.set k v) k' = LuaTable.get t k' := by
  have hne : ¬ k = k' := fun e => h e.symm
  by_cases hv : v = LuaPrim.nil
  · simp [LuaTable.set, hv, LuaTable.get_erase_other t k k' h]
  · simp [LuaTable.set, hv, LuaTable.get_append, LuaTable.get_erase_other t k k' h,
      LuaTable.get, hne]

theorem strchr_append (c : Char) (b : List Char) :
    ∀ a : List Char, c ∉ a → strchr (a ++ c :: b) c = some a.length := by
  intro a
  induction a with
  | nil => intro _; simp [strchr]
  | cons x xs ih =>
    intro h
    have hx : ¬ x = c := fun e => h (by simp [e])
    have hxs : c ∉ xs := fun e => h (by simp [e])
    simp [strchr, hx, ih hxs]

theorem strchr_some (c : Char) :
    ∀ (l : List Char) (i : Nat), strchr l c = some i →
      l = l.take i ++ c :: l.drop (i + 1) := by
  intro l
  induction l with
  | nil => intro i h; simp [strchr] at h
  | cons x xs ih =>
    intro i h
    by_cases hx : x = c
    · simp [strchr, hx] at h
      subst h
      simp [hx]
    · simp only [strchr, hx, if_false, Option.map_eq_some'] at h
      obtain ⟨j, hj, rfl⟩ := h
      have := ih j hj
      simp only [List.take_succ_cons, List.drop_succ_cons, List.cons_append]
      rw [← this]

theorem strchr_of_mem (c : Char) :
    ∀ l : List Char, c ∈ l → ∃ i, strchr l c = some i := by
  intro l
  induction l with
  | nil => intro h; simp at h
  | cons x xs ih =>
    intro h
    by_cases hx : x = c
    · exact ⟨0, by simp [strchr, hx]⟩
    · have hxs : c ∈ xs := by
        rcases List.mem_cons.1 h with e | e
        · exact absurd e.symm hx
        · exact e
      obtain ⟨i, hi⟩ := ih hxs
      exact ⟨i + 1, by simp [strchr, hx, hi]⟩

theorem dep_data (name version : String) :
    (name ++ "-" ++ version).data = name.data ++ '-' :: version.data := by
  simp [String.data_append]

/-- An entry that splits with the key `name` is `name ++ "-" ++ value`. -/
theorem dep_of_split (d name : String) (i : Nat) (h : strchr d.data '-' = some i)
    (hk : String.mk (d.data.take i) = name) :
    d = name ++ "-" ++ String.mk (d.data.drop (i + 1)) := by
  apply String.ext
  have e := strchr_some '-' d.data i h
  have hn : name.data = d.data.take i := by rw [← hk]
  rw [dep_data, hn]
  exact e

theorem split_of_dep (name version : String) (hname : '-' ∉ name.data) :
    strchr (name ++ "-" ++ version).data '-' = some name.data.length ∧
    String.mk ((name ++ "-" ++ version).data.take name.data.length) = name ∧
    String.mk ((name ++ "-" ++ version).data.drop (name.data.length + 1)) = version := by
  rw [dep_data]
  refine ⟨strchr_append '-' _ _ hname, ?_, ?_⟩
  · rw [List.take_left' rfl]
  · have e : name.data ++ '-' :: version.data = (name.data ++ ['-']) ++ version.data := by
      simp
    rw [e, List.drop_left' (by simp)]

theorem deps_get_preserved (name version : String) :
    ∀ (deps : List String) (t t' : LuaTable),
      namespace_index_deps deps t = some t' →
      LuaTable.get t (LuaPrim.string name) = some (LuaPrim.string version) →
      (∀ v2, name ++ "-" ++ v2 ∈ deps → v2 = version) →
      LuaTable.get t' (LuaPrim.string name) = some (LuaPrim.string version) := by
  intro deps
  induction deps with
  | nil =>
    intro t t' h hg _
    simp only [namespace_index_deps, Option.some.injEq] at h
    rw [← h]; exact hg
  | cons d ds ih =>
    intro t t' h hg huniq
    cases hs : strchr d.data '-' with
    | none => simp [namespace_index_deps, hs] at h
    | some i =>
      simp only [namespace_index_deps, hs] at h
      refine ih _ t' h ?_ (fun v2 hv2 => huniq v2 (List.mem_cons_of_mem _ hv2))
      by_cases hk : String.mk (d.data.take i) = name
      · have hd := dep_of_split d name i hs hk
        have hv := huniq (String.mk (d.data.drop (i + 1))) (by rw [← hd]; simp)
        rw [hk, hv]
        exact LuaTable.get_set_same _ _ _ (by simp)
      · rw [LuaTable.get_set_other _ _ _ _ (by simpa using fun e => hk e.symm)]
        exact hg

theorem deps_get_listed (name version : String) (hname : '-' ∉ name.data) :
    ∀ (deps : List String) (t t' : LuaTable),
      namespace_index_deps deps t = some t' →
      name ++ "-" ++ version ∈ deps →
      (∀ v2, name ++ "-" ++ v2 ∈ deps → v2 = version) →
      LuaTable.get t' (LuaPrim.string name) = some (LuaPrim.string version) := by
  intro deps
  induction deps with
  | nil => intro t t' _ hmem; simp at hmem
  | cons d ds ih =>
    intro t t' h hmem huniq
    cases hs : strchr d.data '-' with
    | none => simp [namespace_index_deps, hs] at h
    | some i =>
      simp only [namespace_index_deps, hs] at h
      have huniq' : ∀ v2, name ++ "-" ++ v2 ∈ ds → v2 = version :=
        fun v2 hv2 => huniq v2 (List.mem_cons_of_mem _ hv2)
      by_cases hd : d = name ++ "-" ++ version
      · obtain ⟨h1, h2, h3⟩ := split_of_dep name version hname
        rw [← hd, hs] at h1
        have hi : i = name.data.length := Option.some.inj h1
        rw [← hd, ← hi] at h2 h3
        rw [h2, h3] at h
        exact deps_get_preserved name version ds _ t' h
          (LuaTable.get_set_same _ _ _ (by simp)) huniq'
      · have hmem' : name ++ "-" ++ version ∈ ds := by
          rcases List.mem_cons.1 hmem with e | e
          · exact absurd e.symm hd
          · exact e
        exact ih _ t' h hmem' huniq'

theorem deps_defined :
    ∀ (deps : List String), (∀ d ∈ deps, '-' ∈ d.data) →
      ∀ t : LuaTable, ∃ t', namespace_index_deps deps t = some t' := by
  intro deps
  induction deps with
  | nil => intro _ t; exact ⟨t, rfl⟩
  | cons d ds ih =>
    intro h t
    obtain ⟨i, hi⟩ := strchr_of_mem '-' d.data (h d (by simp))
    simp only [namespace_index_deps, hi]
    exact ih (fun d' hd' => h d' (List.mem_cons_of_mem _ hd')) _

theorem new_obtained_out (L : GIRepository) (p : Option Handle) :
    (new_obtained L p).out = (lgi_gi_info_new L p).out := by
  cases p <;> rfl

theorem toGint_of_isGint {x : Int} (h : isGint x) : toGint x = x := by
  unfold isGint at h
  unfold toGint
  omega

theorem isGint_toGint (x : Int) : isGint (toGint x) := by
  unfold isGint toGint
  omega

theorem lgi_gi_info_new_value (L : GIRepository) (p : Option Handle) :
    ∃ v, (lgi_gi_info_new L p).out = Outcome.value v := by
  unfold lgi_gi_info_new
  cases p with
  | none => exact ⟨_, rfl⟩
  | some h =>
    by_cases ht : L.g_base_info_get_type h = GIInfoType.INVALID
    · simp only [ht, if_true]; exact ⟨_, rfl⟩
    · simp only [ht, if_false]; exact ⟨_, rfl⟩

theorem lgi_gi_info_new_invalid (L : GIRepository) (h : Handle)
    (ht : L.g_base_info_get_type h = GIInfoType.INVALID) :
    lgi_gi_info_new L (some h) = ⟨Outcome.nil, [Event.unref h]⟩ := by
  simp [lgi_gi_info_new, ht]

theorem lgi_gi_info_new_valid (L : GIRepository) (h : Handle)
    (ht : L.g_base_info_get_type h ≠ GIInfoType.INVALID) :
    lgi_gi_info_new L (some h) = ⟨Outcome.prim (LuaPrim.info h), []⟩ := by
  simp [lgi_gi_info_new, ht]

theorem scanReleased_succ (L : GIRepository) (infos : Infos) (n len : Nat) :
    scanReleased L infos n (len + 1) =
      Event.item_get n (child L infos n) :: Event.unref (child L infos n) ::
        scanReleased L infos (n + 1) len := by
  simp [scanReleased, child, List.range'_succ]

theorem scanReleased_zero (L : GIRepository) (infos : Infos) (n : Nat) :
    scanReleased L infos n 0 = [] := by
  simp [scanReleased]

/-- A scan over children none of which has the name ends in the error, after
it obtained and released every child. -/
theorem scan_no_match (L : GIRepository) (infos : Infos) (name : String) :
    ∀ (todo n : Nat),
      (∀ i, n ≤ i → i < n + todo → L.g_base_info_get_name (child L infos i) ≠ name) →
      infos_index_scan L infos name n todo =
        ⟨Outcome.error (LuaError.not_found (L.lgi_type_get_name infos.info) name),
          scanReleased L infos n todo⟩ := by
  intro todo
  induction todo with
  | zero =>
    intro n _
    simp [infos_index_scan, scanReleased_zero]
  | succ t ih =>
    intro n h
    have hn : L.g_base_info_get_name (child L infos n) ≠ name := h n (le_refl n) (by omega)
    have hrest := ih (n + 1) (fun i h1 h2 => h i (by omega) (by omega))
    have hn' : ¬ L.g_base_info_get_name (L.get_item infos.item_get infos.info n) = name := hn
    simp only [infos_index_scan, hn', if_false, hrest, scanReleased_succ, child]

/-- A scan whose first child with the name is at index `k` wraps that child,
after it obtained and released the children before it. -/
theorem scan_first_match (L : GIRepository) (infos : Infos) (name : String) :
    ∀ (todo n k : Nat), n ≤ k → k < n + todo →
      L.g_base_info_get_name (child L infos k) = name →
      (∀ j, n ≤ j → j < k → L.g_base_info_get_name (child L infos j) ≠ name) →
      infos_index_scan L infos name n todo =
        ⟨(lgi_gi_info_new L (some (child L infos k))).out,
          scanReleased L infos n (k - n) ++
            Event.item_get k (child L infos k) ::
              (lgi_gi_info_new L (some (child L infos k))).trace⟩ := by
  intro todo
  induction todo with
  | zero =>
    intro n k h1 h2
    omega
  | succ t ih =>
    intro n k h1 h2 hk hmin
    by_cases hnk : n = k
    · subst hnk
      have hk' : L.g_base_info_get_name (L.get_item infos.item_get infos.info n) = name := hk
      simp [infos_index_scan, hk', scanReleased_zero, child]
    · have hn : ¬ L.g_base_info_get_name (L.get_item infos.item_get infos.info n) = name :=
        hmin n (le_refl n) (by omega)
      have hrest := ih (n + 1) k (by omega) (by omega) hk
        (fun j hj1 hj2 => hmin j (by omega) hj2)
      have hlen : k - n = (k - (n + 1)) + 1 := by omega
      simp only [infos_index_scan, hn, if_false, hrest]
      rw [hlen, scanReleased_succ]
      simp [child]

theorem runTrace_append (rc : RefCounts) (a b : List Event) :
    runTrace rc (a ++ b) = runTrace (runTrace rc a) b := by
  simp [runTrace, List.foldl_append]

theorem apply_get_unref (rc : RefCounts) (n : Int) (c : Handle) :
    Event.apply (Event.apply rc (Event.item_get n c)) (Event.unref c) = rc := by
  funext x
  simp only [Event.apply]
  split <;> omega

/-- The children a scan obtained and released keep their reference counts. -/
theorem runTrace_scanReleased (L : GIRepository) (infos : Infos) :
    ∀ (len n : Nat) (rc : RefCounts), runTrace rc (scanReleased L infos n len) = rc := by
  intro len
  induction len with
  | zero => intro n rc; simp [scanReleased_zero, runTrace]
  | succ t ih =>
    intro n rc
    rw [scanReleased_succ]
    have := ih (n + 1) rc
    simp only [runTrace, List.foldl_cons, apply_get_unref] at this ⊢
    exact this

theorem accessorCalls_scanReleased (L : GIRepository) (infos : Infos) :
    ∀ (len n : Nat), accessorCalls (scanReleased L infos n len) =
      (List.range' n len).map (fun i : Nat => ((i : Int), child L infos i)) := by
  intro len
  induction len with
  | zero => intro n; simp [scanReleased_zero, accessorCalls]
  | succ t ih =>
    intro n
    rw [scanReleased_succ, List.range'_succ]
    have := ih (n + 1)
    simp only [accessorCalls, List.filterMap_cons, List.map_cons] at this ⊢
    rw [this]

theorem accessorCalls_append (a b : List Event) :
    accessorCalls (a ++ b) = accessorCalls a ++ accessorCalls b := by
  simp [accessorCalls, List.filterMap_append]

theorem accessorCalls_lgi_gi_info_new (L : GIRepository) (p : Option Handle) :
    accessorCalls (lgi_gi_info_new L p).trace = [] := by
  unfold lgi_gi_info_new
  cases p with
  | none => rfl
  | some h =>
    by_cases ht : L.g_base_info_get_type h = GIInfoType.INVALID
    · simp [ht, accessorCalls]
    · simp [ht, accessorCalls]

theorem lt_toNat_iff (i : Nat) (c : Int) : i < c.toNat ↔ (i : Int) < c := by
  omega

/-! ## The wrapper `lgi_gi_info_new` -/

/-- C8, as stated, fails on a record whose type tag is `unresolved`: the demo
record 4 has that tag, and `lgi_gi_info_new` neither releases it nor returns
the absent value; it returns a proxy that stores the handle. -/
theorem lgi_gi_info_new_wraps_unresolved :
    demoRepo.g_base_info_get_type 4 = GIInfoType.UNRESOLVED ∧
    ¬ ((lgi_gi_info_new demoRepo (some 4)).out = Outcome.nil ∧
        releases (lgi_gi_info_new demoRepo (some 4)).trace 4 = 1) ∧
    lgi_gi_info_new demoRepo (some 4) = ⟨Outcome.prim (LuaPrim.info 4), []⟩ := by
  decide

/-- C8 (amended): the three-way contract of `lgi_gi_info_new`, for every
library and every handle.  A null handle yields nil and no reference-count
event.  A handle whose type tag is `GI_INFO_TYPE_INVALID` is released exactly
once, nothing else happens, and nil is returned.  Any other handle, one of
tag `unresolved` included, yields a proxy that stores exactly that handle,
with no acquire and no release; the reference counts stay as they are. -/
theorem lgi_gi_info_new_contract (L : GIRepository) :
    lgi_gi_info_new L none = ⟨Outcome.nil, []⟩ ∧
    (∀ h, L.g_base_info_get_type h = GIInfoType.INVALID →
      lgi_gi_info_new L (some h) = ⟨Outcome.nil, [Event.unref h]⟩ ∧
      releases (lgi_gi_info_new L (some h)).trace h = 1 ∧
      ∀ rc x, runTrace rc (lgi_gi_info_new L (some h)).trace x =
        if x = h then rc x - 1 else rc x) ∧
    (∀ h, L.g_base_info_get_type h ≠ GIInfoType.INVALID →
      lgi_gi_info_new L (some h) = ⟨Outcome.prim (LuaPrim.info h), []⟩ ∧
      ∀ rc, runTrace rc (lgi_gi_info_new L (some h)).trace = rc) ∧
    (∀ h, L.g_base_info_get_type h = GIInfoType.UNRESOLVED →
      lgi_gi_info_new L (some h) = ⟨Outcome.prim (LuaPrim.info h), []⟩) := by
  refine ⟨rfl, ?_, ?_, ?_⟩
  · intro h ht
    have e := lgi_gi_info_new_invalid L h ht
    rw [e]
    refine ⟨rfl, ?_, ?_⟩
    · simp [releases]
    · intro rc x
      simp [runTrace, Event.apply]
  · intro h ht
    have e := lgi_gi_info_new_valid L h ht
    rw [e]
    exact ⟨rfl, fun rc => rfl⟩
  · intro h ht
    simp [lgi_gi_info_new, ht]

/-- The contract of C8 (amended) on the demo library: record 5 has the
invalid tag and is released once, the function record 1 is wrapped. -/
theorem lgi_gi_info_new_contract_witness :
    lgi_gi_info_new demoRepo (some 5) = ⟨Outcome.nil, [Event.unref 5]⟩ ∧
    lgi_gi_info_new demoRepo (some 1) = ⟨Outcome.prim (LuaPrim.info 1), []⟩ :=
  ⟨((lgi_gi_info_new_contract demoRepo).2.1 5 (by decide)).1,
   ((lgi_gi_info_new_contract demoRepo).2.2.1 1 (by decide)).1⟩

/-! ## The collection view: `infos_index` -/

/-- C3: the named lookup of `infos_index`, for every library, every view and
every name.  The lookup returns a value if and only if some child at an index
in `[0, count)` has exactly that name; the value is then the wrap of the child
at the lowest such index; and when no child in `[0, count)` has the name, the
lookup raises the not-found error, which carries the qualified name of the
owner of the view and the requested name. -/
theorem infos_index_by_name (L : GIRepository) (infos : Infos) (name : String) :
    ((∃ v, (infos_index L infos (LuaArg.string name)).out = Outcome.value v) ↔
      ∃ i, matchAt L infos name i) ∧
    (∀ k, matchAt L infos name k → (∀ j, j < k → ¬ matchAt L infos name j) →
      (infos_index L infos (LuaArg.string name)).out =
        (lgi_gi_info_new L (some (child L infos k))).out) ∧
    ((¬ ∃ i, matchAt L infos name i) →
      (infos_index L infos (LuaArg.string name)).out =
        Outcome.error (LuaError.not_found (L.lgi_type_get_name infos.info) name)) := by
  have hfirst : ∀ k, matchAt L infos name k → (∀ j, j < k → ¬ matchAt L infos name j) →
      (infos_index L infos (LuaArg.string name)).out =
        (lgi_gi_info_new L (some (child L infos k))).out := by
    intro k hk hmin
    have hlt : k < 0 + infos.count.toNat := by
      have := (lt_toNat_iff k infos.count).2 hk.1
      omega
    have e := scan_first_match L infos name infos.count.toNat 0 k (Nat.zero_le k) hlt hk.2
      (fun j _ hj hname => hmin j hj ⟨lt_trans (by exact_mod_cast hj) hk.1, hname⟩)
    simp only [infos_index, e]
  have hnone : (¬ ∃ i, matchAt L infos name i) →
      (infos_index L infos (LuaArg.string name)).out =
        Outcome.error (LuaError.not_found (L.lgi_type_get_name infos.info) name) := by
    intro hno
    have e := scan_no_match L infos name infos.count.toNat 0
      (fun i _ hi hname => hno ⟨i, (lt_toNat_iff i infos.count).1 (by omega), hname⟩)
    simp only [infos_index, e]
  refine ⟨⟨?_, ?_⟩, hfirst, hnone⟩
  · rintro ⟨v, hv⟩
    by_contra hno
    rw [hnone hno] at hv
    exact Outcome.noConfusion hv
  · intro hex
    classical
    have hk := Nat.find_spec hex
    have hmin : ∀ j, j < Nat.find hex → ¬ matchAt L infos name j :=
      fun j hj => Nat.find_min hex hj
    rw [hfirst (Nat.find hex) hk hmin]
    exact lgi_gi_info_new_value L _

/-- The named lookup of C3 on the `fields` view of the demo struct `Box`,
whose fields are named `x`, `y`, `y`: the lookup of `y` returns the wrap of
the field at index 1. -/
theorem infos_index_by_name_witness :
    (infos_index demoRepo demoFields (LuaArg.string "y")).out =
      (lgi_gi_info_new demoRepo (some (child demoRepo demoFields 1))).out :=
  (infos_index_by_name demoRepo demoFields "y").2.1 1 (by decide)
    (by
      intro j hj
      have h0 : j = 0 := by omega
      subst h0
      decide)

/-- C4, evaluated where the code departs from it: on the `fields` view of the
demo struct `Box`, of length 3, the host index `2^32 + 1` is the zero-based
index `2^32`, which lies outside `[0, 3)`; `infos_index` stores
`lua_tointeger (L, 2) - 1` in the `gint` variable `n`, which becomes 0, the
test `n >= 0 && n < count` passes, the accessor is called at 0 and the wrap of
the first field is returned; no out-of-bounds error is raised.  For every
library and view the rest holds.  For a zero-based index `i` that is a `gint`
(host index `i + 1`): when `0 ≤ i < count` the access calls the accessor once,
at `i`, and returns the wrap of the child it gets; for every other such `i`
the access raises the out-of-bounds error with an empty trace, so the accessor
is not called, in particular for `i = -1` (host index 0) and for `i = count`
(host index `count + 1`).  For an arbitrary host index `k` the index tested
and used is the `gint` value of `k - 1`. -/
theorem infos_index_number_truncates :
    ¬ (0 ≤ (4294967296 : Int) ∧ (4294967296 : Int) < demoFields.count) ∧
    infos_index demoRepo demoFields (LuaArg.number (4294967296 + 1)) =
      ⟨Outcome.prim (LuaPrim.info 10), [Event.item_get 0 10]⟩ ∧
    infos_index demoRepo demoFields (LuaArg.number (4294967296 + 1)) ≠
      ⟨Outcome.error LuaError.out_of_bounds, []⟩ ∧
    accessorCalls
      (infos_index demoRepo demoFields (LuaArg.number (4294967296 + 1))).trace =
        [(0, 10)] ∧
    ∀ (L : GIRepository) (infos : Infos),
      (∀ i, isGint i → 0 ≤ i → i < infos.count →
        infos_index L infos (LuaArg.number (i + 1)) =
          ⟨(lgi_gi_info_new L (some (L.get_item infos.item_get infos.info i))).out,
            Event.item_get i (L.get_item infos.item_get infos.info i) ::
              (lgi_gi_info_new L (some (L.get_item infos.item_get infos.info i))).trace⟩ ∧
        accessorCalls (infos_index L infos (LuaArg.number (i + 1))).trace =
          [(i, L.get_item infos.item_get infos.info i)]) ∧
      (∀ i, isGint i → ¬ (0 ≤ i ∧ i < infos.count) →
        infos_index L infos (LuaArg.number (i + 1)) =
          ⟨Outcome.error LuaError.out_of_bounds, []⟩ ∧
        accessorCalls (infos_index L infos (LuaArg.number (i + 1))).trace = []) ∧
      infos_index L infos (LuaArg.number 0) = ⟨Outcome.error LuaError.out_of_bounds, []⟩ ∧
      (isGint infos.count →
        infos_index L infos (LuaArg.number (infos.count + 1)) =
          ⟨Outcome.error LuaError.out_of_bounds, []⟩) ∧
      (∀ k, infos_index L infos (LuaArg.number k) =
        if 0 ≤ toGint (k - 1) ∧ toGint (k - 1) < infos.count then
          ⟨(lgi_gi_info_new L
              (some (L.get_item infos.item_get infos.info (toGint (k - 1))))).out,
            Event.item_get (toGint (k - 1))
                (L.get_item infos.item_get infos.info (toGint (k - 1))) ::
              (lgi_gi_info_new L
                (some (L.get_item infos.item_get infos.info (toGint (k - 1))))).trace⟩
        else ⟨Outcome.error LuaError.out_of_bounds, []⟩) := by
  refine ⟨by decide, by decide, by decide, by decide, ?_⟩
  intro L infos
  have hgen : ∀ k, infos_index L infos (LuaArg.number k) =
      if 0 ≤ toGint (k - 1) ∧ toGint (k - 1) < infos.count then
        ⟨(lgi_gi_info_new L
            (some (L.get_item infos.item_get infos.info (toGint (k - 1))))).out,
          Event.item_get (toGint (k - 1))
              (L.get_item infos.item_get infos.info (toGint (k - 1))) ::
            (lgi_gi_info_new L
              (some (L.get_item infos.item_get infos.info (toGint (k - 1))))).trace⟩
      else ⟨Outcome.error LuaError.out_of_bounds, []⟩ := by
    intro k
    simp only [infos_index, ge_iff_le]
  have hin : ∀ i, isGint i → toGint (i + 1 - 1) = i := by
    intro i hi
    rw [Int.add_sub_cancel]
    exact toGint_of_isGint hi
  have hfail : ∀ i, isGint i → ¬ (0 ≤ i ∧ i < infos.count) →
      infos_index L infos (LuaArg.number (i + 1)) =
        ⟨Outcome.error LuaError.out_of_bounds, []⟩ := by
    intro i hi hout
    rw [hgen, hin i hi, if_neg hout]
  refine ⟨?_, ?_, ?_, ?_, hgen⟩
  · intro i hi h0 hlt
    have e := hgen (i + 1)
    rw [hin i hi, if_pos ⟨h0, hlt⟩] at e
    rw [e]
    refine ⟨rfl, ?_⟩
    have := accessorCalls_lgi_gi_info_new L (some (L.get_item infos.item_get infos.info i))
    simp only [accessorCalls, List.filterMap_cons] at this ⊢
    rw [this]
  · intro i hi hout
    rw [hfail i hi hout]
    exact ⟨rfl, rfl⟩
  · have := hfail (-1) (by unfold isGint; omega) (by omega)
    simpa using this
  · intro hc
    exact hfail infos.count hc (by omega)

/-- C9: reference counts of the named lookup of `infos_index`, for every
library, every view and every name; every accessor call acquires one
reference on the child it returns.  A lookup that finds no child with the
name obtains the children at the indices `0, ..., n - 1` (with `n` the length
of the view), releases each right after it obtained it, and leaves every
reference count as it was.  A lookup whose first match is at index `k`
obtains the children at the indices `0, ..., k` and no other, releases the
`k` children before the match right after it obtained them, and hands the
match to `lgi_gi_info_new`: the reference counts end as they were, plus one
on the match when it is wrapped in the returned proxy (the reference that `info_gc`
of the proxy releases), and unchanged when the match has the invalid tag, is
released by `lgi_gi_info_new` and nil is returned. -/
theorem infos_index_by_name_refcounts (L : GIRepository) (infos : Infos) (name : String) :
    ((¬ ∃ i, matchAt L infos name i) →
      (infos_index L infos (LuaArg.string name)).trace =
        scanReleased L infos 0 infos.count.toNat ∧
      accessorCalls (infos_index L infos (LuaArg.string name)).trace =
        (List.range infos.count.toNat).map (fun i : Nat => ((i : Int), child L infos i)) ∧
      ∀ rc, runTrace rc (infos_index L infos (LuaArg.string name)).trace = rc) ∧
    (∀ k, matchAt L infos name k → (∀ j, j < k → ¬ matchAt L infos name j) →
      (infos_index L infos (LuaArg.string name)).trace =
        scanReleased L infos 0 k ++ Event.item_get k (child L infos k) ::
          (lgi_gi_info_new L (some (child L infos k))).trace ∧
      accessorCalls (infos_index L infos (LuaArg.string name)).trace =
        (List.range (k + 1)).map (fun i : Nat => ((i : Int), child L infos i)) ∧
      (L.g_base_info_get_type (child L infos k) ≠ GIInfoType.INVALID →
        (infos_index L infos (LuaArg.string name)).out =
          Outcome.prim (LuaPrim.info (child L infos k)) ∧
        (infos_index L infos (LuaArg.string name)).trace =
          scanReleased L infos 0 k ++ [Event.item_get k (child L infos k)] ∧
        (∀ rc x, runTrace rc (infos_index L infos (LuaArg.string name)).trace x =
          if x = child L infos k then rc x + 1 else rc x) ∧
        ∀ rc, runTrace rc ((infos_index L infos (LuaArg.string name)).trace ++
          info_gc (child L infos k)) = rc) ∧
      (L.g_base_info_get_type (child L infos k) = GIInfoType.INVALID →
        (infos_index L infos (LuaArg.string name)).out = Outcome.nil ∧
        (infos_index L infos (LuaArg.string name)).trace =
          scanReleased L infos 0 k ++
            [Event.item_get k (child L infos k), Event.unref (child L infos k)] ∧
        ∀ rc, runTrace rc (infos_index L infos (LuaArg.string name)).trace = rc)) := by
  constructor
  · intro hno
    have e := scan_no_match L infos name infos.count.toNat 0
      (fun i _ hi hname => hno ⟨i, (lt_toNat_iff i infos.count).1 (by omega), hname⟩)
    have et : (infos_index L infos (LuaArg.string name)).trace =
        scanReleased L infos 0 infos.count.toNat := by
      simp only [infos_index, e]
    rw [et]
    refine ⟨rfl, ?_, ?_⟩
    · rw [accessorCalls_scanReleased, List.range_eq_range']
    · intro rc
      exact runTrace_scanReleased L infos _ 0 rc
  · intro k hk hmin
    have hlt : k < 0 + infos.count.toNat := by
      have := (lt_toNat_iff k infos.count).2 hk.1
      omega
    have e := scan_first_match L infos name infos.count.toNat 0 k (Nat.zero_le k) hlt hk.2
      (fun j _ hj hname => hmin j hj ⟨lt_trans (by exact_mod_cast hj) hk.1, hname⟩)
    have et : (infos_index L infos (LuaArg.string name)).trace =
        scanReleased L infos 0 k ++ Event.item_get k (child L infos k) ::
          (lgi_gi_info_new L (some (child L infos k))).trace := by
      simp only [infos_index, e, Nat.sub_zero]
    have eo : (infos_index L infos (LuaArg.string name)).out =
        (lgi_gi_info_new L (some (child L infos k))).out := by
      simp only [infos_index, e]
    rw [et, eo]
    refine ⟨rfl, ?_, ?_, ?_⟩
    · rw [accessorCalls_append, accessorCalls_scanReleased, List.range_eq_range',
        List.range'_concat]
      have := accessorCalls_lgi_gi_info_new L (some (child L infos k))
      simp only [accessorCalls, List.filterMap_cons] at this ⊢
      rw [this]
      simp
    · intro ht
      have en := lgi_gi_info_new_valid L (child L infos k) ht
      rw [en]
      refine ⟨rfl, rfl, ?_, ?_⟩
      · intro rc x
        rw [runTrace_append, runTrace_scanReleased]
        simp [runTrace, Event.apply]
      · intro rc
        rw [runTrace_append, runTrace_append, runTrace_scanReleased]
        simp only [runTrace, info_gc, List.foldl_cons, List.foldl_nil, apply_get_unref]
    · intro ht
      have en := lgi_gi_info_new_invalid L (child L infos k) ht
      rw [en]
      refine ⟨rfl, rfl, ?_⟩
      intro rc
      rw [runTrace_append, runTrace_scanReleased]
      simp only [runTrace, List.foldl_cons, List.foldl_nil, apply_get_unref]

/-- The reference counts of C9 on the `fields` view of the demo struct `Box`:
the lookup of the absent name `z` obtains and releases the three fields and
leaves every reference count as it was. -/
theorem infos_index_by_name_refcounts_witness :
    (infos_index demoRepo demoFields (LuaArg.string "z")).trace =
        scanReleased demoRepo demoFields 0 demoFields.count.toNat ∧
      accessorCalls (infos_index demoRepo demoFields (LuaArg.string "z")).trace =
        (List.range demoFields.count.toNat).map
          (fun i : Nat => ((i : Int), child demoRepo demoFields i)) ∧
      ∀ rc, runTrace rc (infos_index demoRepo demoFields (LuaArg.string "z")).trace = rc :=
  (infos_index_by_name_refcounts demoRepo demoFields "z").1 (by
    rintro ⟨i, hi, hname⟩
    have hi3 : i < 3 := by
      have : (i : Int) < 3 := hi
      omega
    interval_cases i <;> revert hname <;> decide)

/-! ## The property dispatcher: `info_index` -/

/-- C1, evaluated where the code departs from it: the demo function record 1
has the bitmask `GI_FUNCTION_IS_METHOD | GI_FUNCTION_THROWS`, both bits test
as set, and the `flags` table `info_index` returns holds the one key
`is_method`; the key `throws` is missing.  Whatever the bitmask, the table
has at most one entry, and it is the entry `is_method` alone as soon as that
bit is set; and for every library the `flags` of a function handle is this
table. -/
theorem function_flags_only_first_set_bit :
    demoRepo.GI_IS_FUNCTION_INFO 1 = true ∧
    demoRepo.g_function_info_get_flags 1 = 33 ∧
    33 &&& GI_FUNCTION_IS_METHOD ≠ 0 ∧ 33 &&& GI_FUNCTION_THROWS ≠ 0 ∧
    info_index demoRepo 1 "flags" =
      ⟨Outcome.value (LuaValue.table
        [(LuaPrim.string "is_method", LuaPrim.boolean true)]), []⟩ ∧
    LuaTable.get (function_flags_table 33) (LuaPrim.string "throws") = none ∧
    (∀ flags, (function_flags_table flags).length ≤ 1) ∧
    (∀ flags, flags &&& GI_FUNCTION_IS_METHOD ≠ 0 →
      function_flags_table flags = [(LuaPrim.string "is_method", LuaPrim.boolean true)]) ∧
    (∀ (L : GIRepository) (h : Handle), L.GI_IS_CALLABLE_INFO h = true →
      L.GI_IS_SIGNAL_INFO h = false → L.GI_IS_FUNCTION_INFO h = true →
      info_index L h "flags" =
        ⟨Outcome.value (LuaValue.table
          (function_flags_table (L.g_function_info_get_flags h))), []⟩) := by
  refine ⟨by decide, by decide, by decide, by decide, by decide, by decide, ?_, ?_, ?_⟩
  · intro flags
    unfold function_flags_table
    simp only [if_false]
    split_ifs <;> simp [setflag, LuaTable.set, LuaTable.erase]
  · intro flags h
    simp [function_flags_table, h, setflag, LuaTable.set, LuaTable.erase]
  · intro L h h1 h2 h3
    simp [info_index, info_index_type, info_index_is, info_index_name,
      info_index_fullname, info_index_base, info_index_registered, info_index_callable,
      info_index_signal, info_index_function, h1, h2, h3]

/-- C2, evaluated where the code departs from it: the demo signal record 2
has the bitmask `G_SIGNAL_RUN_LAST | G_SIGNAL_DETAILED`, both bits test as
set, and the `flags` table `info_index` returns holds the one key `run_last`;
the key `detailed` is missing.  Whatever the bitmask, the table has at most
one entry, and it is the entry `run_last` alone when that bit is set and
`run_first` is not; and for every library the `flags` of a signal handle is
this table. -/
theorem signal_flags_only_first_set_bit :
    demoRepo.GI_IS_SIGNAL_INFO 2 = true ∧
    demoRepo.g_signal_info_get_flags 2 = 18 ∧
    18 &&& G_SIGNAL_RUN_LAST ≠ 0 ∧ 18 &&& G_SIGNAL_DETAILED ≠ 0 ∧
    info_index demoRepo 2 "flags" =
      ⟨Outcome.value (LuaValue.table
        [(LuaPrim.string "run_last", LuaPrim.boolean true)]), []⟩ ∧
    LuaTable.get (signal_flags_table 18) (LuaPrim.string "detailed") = none ∧
    (∀ flags, (signal_flags_table flags).length ≤ 1) ∧
    (∀ flags, flags &&& G_SIGNAL_RUN_FIRST = 0 → flags &&& G_SIGNAL_RUN_LAST ≠ 0 →
      signal_flags_table flags = [(LuaPrim.string "run_last", LuaPrim.boolean true)]) ∧
    (∀ (L : GIRepository) (h : Handle), L.GI_IS_CALLABLE_INFO h = true →
      L.GI_IS_SIGNAL_INFO h = true →
      info_index L h "flags" =
        ⟨Outcome.value (LuaValue.table
          (signal_flags_table (L.g_signal_info_get_flags h))), []⟩) := by
  refine ⟨by decide, by decide, by decide, by decide, by decide, by decide, ?_, ?_, ?_⟩
  · intro flags
    unfold signal_flags_table
    simp only [if_false]
    split_ifs <;> simp [setflag, LuaTable.set, LuaTable.erase]
  · intro flags h0 h
    simp [signal_flags_table, h0, h, setflag, LuaTable.set, LuaTable.erase]
  · intro L h h1 h2
    simp [info_index, info_index_type, info_index_is, info_index_name,
      info_index_fullname, info_index_base, info_index_registered, info_index_callable,
      info_index_signal, h1, h2]

/-- C5: the soft miss of `info_index`, for every library and every handle,
whatever its kind.  A property name that does not occur in `info_index`
reads as nil, with no error and no reference-count event; so does
`totally_unknown_prop`.  A name that a branch handles reads as nil as well
when the handle fails the test that guards the branch: `typeinfo` on a handle
that is no arg, constant, property or field (or whose type info is `NULL`),
`gtype` on a handle that is no registered type, `return_type` and `args` on a
handle that is not callable, `flags` on a handle that is neither a signal nor
a function, `storage` and `values` on a handle that is no enum, `value` on a
handle that is no enum value, `params`, `tag`, `is_basic`, `interface` and
`array_type` on a handle that is no type info, `params` on a type info whose
tag is none of array, glist, gslist and ghash, `interface` on a type info
whose tag is not interface, `array_type` on one whose tag is not array, and
`name` and `namespace` on a type info.  The names of the registered types
follow, each under every way in which the handle misses the branch that
handles it: all nine on a handle that is no registered type;
`is_gtype_struct` on one that is no struct; `fields` on one that is no struct
and no union, and is an interface or no object; `methods` on one that is none
of struct, union, interface and object; `constants`, `properties` and
`signals` on one that is neither interface nor object, or is a struct or a
union; `prerequisites` on one that is no interface, or is a struct or a
union; `parent` and `interfaces` on one that is no object, or is a struct, a
union or an interface. -/
theorem info_index_soft_miss (L : GIRepository) (info : Handle) :
    (∀ prop, prop ∉ info_index_names → info_index L info prop = ⟨Outcome.nil, []⟩) ∧
    info_index L info "totally_unknown_prop" = ⟨Outcome.nil, []⟩ ∧
    (info_index_ti L info = none → info_index L info "typeinfo" = ⟨Outcome.nil, []⟩) ∧
    (L.GI_IS_ARG_INFO info = false → L.GI_IS_CONSTANT_INFO info = false →
      L.GI_IS_PROPERTY_INFO info = false → L.GI_IS_FIELD_INFO info = false →
      info_index L info "typeinfo" = ⟨Outcome.nil, []⟩) ∧
    (L.GI_IS_REGISTERED_TYPE_INFO info = false →
      info_index L info "gtype" = ⟨Outcome.nil, []⟩) ∧
    (L.GI_IS_CALLABLE_INFO info = false →
      info_index L info "return_type" = ⟨Outcome.nil, []⟩ ∧
      info_index L info "args" = ⟨Outcome.nil, []⟩ ∧
      info_index L info "flags" = ⟨Outcome.nil, []⟩) ∧
    (L.GI_IS_SIGNAL_INFO info = false → L.GI_IS_FUNCTION_INFO info = false →
      info_index L info "flags" = ⟨Outcome.nil, []⟩) ∧
    (L.GI_IS_ENUM_INFO info = false →
      info_index L info "storage" = ⟨Outcome.nil, []⟩ ∧
      info_index L info "values" = ⟨Outcome.nil, []⟩) ∧
    (L.GI_IS_VALUE_INFO info = false →
      info_index L info "value" = ⟨Outcome.nil, []⟩) ∧
    (L.GI_IS_TYPE_INFO info = false →
      info_index L info "params" = ⟨Outcome.nil, []⟩ ∧
      info_index L info "tag" = ⟨Outcome.nil, []⟩ ∧
      info_index L info "is_basic" = ⟨Outcome.nil, []⟩ ∧
      info_index L info "interface" = ⟨Outcome.nil, []⟩ ∧
      info_index L info "array_type" = ⟨Outcome.nil, []⟩) ∧
    (L.g_type_info_get_tag info ≠ GITypeTag.ARRAY →
      L.g_type_info_get_tag info ≠ GITypeTag.GLIST →
      L.g_type_info_get_tag info ≠ GITypeTag.GSLIST →
      L.g_type_info_get_tag info ≠ GITypeTag.GHASH →
      info_index L info "params" = ⟨Outcome.nil, []⟩) ∧
    (L.g_type_info_get_tag info ≠ GITypeTag.INTERFACE →
      info_index L info "interface" = ⟨Outcome.nil, []⟩) ∧
    (L.g_type_info_get_tag info ≠ GITypeTag.ARRAY →
      info_index L info "array_type" = ⟨Outcome.nil, []⟩) ∧
    (L.GI_IS_TYPE_INFO info = true →
      info_index L info "name" = ⟨Outcome.nil, []⟩ ∧
      info_index L info "namespace" = ⟨Outcome.nil, []⟩) ∧
    (L.GI_IS_REGISTERED_TYPE_INFO info = false →
      info_index L info "is_gtype_struct" = ⟨Outcome.nil, []⟩ ∧
      info_index L info "fields" = ⟨Outcome.nil, []⟩ ∧
      info_index L info "methods" = ⟨Outcome.nil, []⟩ ∧
      info_index L info "prerequisites" = ⟨Outcome.nil, []⟩ ∧
      info_index L info "constants" = ⟨Outcome.nil, []⟩ ∧
      info_index L info "properties" = ⟨Outcome.nil, []⟩ ∧
      info_index L info "signals" = ⟨Outcome.nil, []⟩ ∧
      info_index L info "parent" = ⟨Outcome.nil, []⟩ ∧
      info_index L info "interfaces" = ⟨Outcome.nil, []⟩) ∧
    (L.GI_IS_STRUCT_INFO info = false →
      info_index L info "is_gtype_struct" = ⟨Outcome.nil, []⟩) ∧
    (L.GI_IS_STRUCT_INFO info = false →
      L.GI_IS_UNION_INFO info = false →
      L.GI_IS_INTERFACE_INFO info = true →
      info_index L info "fields" = ⟨Outcome.nil, []⟩) ∧
    (L.GI_IS_STRUCT_INFO info = false →
      L.GI_IS_UNION_INFO info = false →
      L.GI_IS_OBJECT_INFO info = false →
      info_index L info "fields" = ⟨Outcome.nil, []⟩) ∧
    (L.GI_IS_STRUCT_INFO info = false →
      L.GI_IS_UNION_INFO info = false →
      L.GI_IS_INTERFACE_INFO info = false →
      L.GI_IS_OBJECT_INFO info = false →
      info_index L info "methods" = ⟨Outcome.nil, []⟩) ∧
    (L.GI_IS_INTERFACE_INFO info = false →
      L.GI_IS_OBJECT_INFO info = false →
      info_index L info "constants" = ⟨Outcome.nil, []⟩ ∧
      info_index L info "properties" = ⟨Outcome.nil, []⟩ ∧
      info_index L info "signals" = ⟨Outcome.nil, []⟩) ∧
    (L.GI_IS_STRUCT_INFO info = true →
      info_index L info "prerequisites" = ⟨Outcome.nil, []⟩ ∧
      info_index L info "constants" = ⟨Outcome.nil, []⟩ ∧
      info_index L info "properties" = ⟨Outcome.nil, []⟩ ∧
      info_index L info "signals" = ⟨Outcome.nil, []⟩ ∧
      info_index L info "parent" = ⟨Outcome.nil, []⟩ ∧
      info_index L info "interfaces" = ⟨Outcome.nil, []⟩) ∧
    (L.GI_IS_UNION_INFO info = true →
      info_index L info "prerequisites" = ⟨Outcome.nil, []⟩ ∧
      info_index L info "constants" = ⟨Outcome.nil, []⟩ ∧
      info_index L info "properties" = ⟨Outcome.nil, []⟩ ∧
      info_index L info "signals" = ⟨Outcome.nil, []⟩ ∧
      info_index L info "parent" = ⟨Outcome.nil, []⟩ ∧
      info_index L info "interfaces" = ⟨Outcome.nil, []⟩) ∧
    (L.GI_IS_INTERFACE_INFO info = false →
      info_index L info "prerequisites" = ⟨Outcome.nil, []⟩) ∧
    (L.GI_IS_INTERFACE_INFO info = true →
      info_index L info "parent" = ⟨Outcome.nil, []⟩ ∧
      info_index L info "interfaces" = ⟨Outcome.nil, []⟩) ∧
    (L.GI_IS_OBJECT_INFO info = false →
      info_index L info "parent" = ⟨Outcome.nil, []⟩ ∧
      info_index L info "interfaces" = ⟨Outcome.nil, []⟩) := by
  refine ⟨?_, ?_, ?_, ?_, ?_, ?_, ?_, ?_, ?_, ?_, ?_, ?_, ?_, ?_, ?_, ?_, ?_, ?_, ?_, ?_, ?_, ?_, ?_, ?_, ?_⟩
  · intro prop hprop
    simp only [info_index_names, List.mem_cons, List.mem_singleton, List.not_mem_nil,
      not_or, or_false] at hprop
    simp [info_index, info_index_type, info_index_is, info_index_name,
      info_index_fullname, info_index_base, info_index_registered, info_index_callable,
      info_index_signal, info_index_function, info_index_enum, info_index_value,
      info_index_typeinfo, hprop]
  · simp [info_index, info_index_type, info_index_is, info_index_name,
      info_index_fullname, info_index_base, info_index_registered, info_index_callable,
      info_index_signal, info_index_function, info_index_enum, info_index_value,
      info_index_typeinfo]
  · intro h
    simp [info_index, info_index_type, info_index_is, info_index_name,
      info_index_fullname, info_index_base, info_index_registered, info_index_callable,
      info_index_signal, info_index_function, info_index_enum, info_index_value,
      info_index_typeinfo, h]
  · intro h1 h2 h3 h4
    simp [info_index, info_index_type, info_index_is, info_index_name,
      info_index_fullname, info_index_base, info_index_registered, info_index_callable,
      info_index_signal, info_index_function, info_index_enum, info_index_value,
      info_index_typeinfo, info_index_ti, h1, h2, h3, h4]
  · intro h
    simp [info_index, info_index_type, info_index_is, info_index_name,
      info_index_fullname, info_index_base, info_index_registered, info_index_callable,
      info_index_signal, info_index_function, info_index_enum, info_index_value,
      info_index_typeinfo, h]
  · intro h
    simp [info_index, info_index_type, info_index_is, info_index_name,
      info_index_fullname, info_index_base, info_index_registered, info_index_callable,
      info_index_signal, info_index_function, info_index_enum, info_index_value,
      info_index_typeinfo, h]
  · intro h1 h2
    simp [info_index, info_index_type, info_index_is, info_index_name,
      info_index_fullname, info_index_base, info_index_registered, info_index_callable,
      info_index_signal, info_index_function, info_index_enum, info_index_value,
      info_index_typeinfo, h1, h2]
  · intro h
    simp [info_index, info_index_type, info_index_is, info_index_name,
      info_index_fullname, info_index_base, info_index_registered, info_index_callable,
      info_index_signal, info_index_function, info_index_enum, info_index_value,
      info_index_typeinfo, h]
  · intro h
    simp [info_index, info_index_type, info_index_is, info_index_name,
      info_index_fullname, info_index_base, info_index_registered, info_index_callable,
      info_index_signal, info_index_function, info_index_enum, info_index_value,
      info_index_typeinfo, h]
  · intro h
    simp [info_index, info_index_type, info_index_is, info_index_name,
      info_index_fullname, info_index_base, info_index_registered, info_index_callable,
      info_index_signal, info_index_function, info_index_enum, info_index_value,
      info_index_typeinfo, h]
  · intro h1 h2 h3 h4
    simp [info_index, info_index_type, info_index_is, info_index_name,
      info_index_fullname, info_index_base, info_index_registered, info_index_callable,
      info_index_signal, info_index_function, info_index_enum, info_index_value,
      info_index_typeinfo, h1, h2, h3, h4]
  · intro h
    simp [info_index, info_index_type, info_index_is, info_index_name,
      info_index_fullname, info_index_base, info_index_registered, info_index_callable,
      info_index_signal, info_index_function, info_index_enum, info_index_value,
      info_index_typeinfo, h]
  · intro h
    simp [info_index, info_index_type, info_index_is, info_index_name,
      info_index_fullname, info_index_base, info_index_registered, info_index_callable,
      info_index_signal, info_index_function, info_index_enum, info_index_value,
      info_index_typeinfo, h]
  · intro h
    simp [info_index, info_index_type, info_index_is, info_index_name,
      info_index_fullname, info_index_base, info_index_registered, info_index_callable,
      info_index_signal, info_index_function, info_index_enum, info_index_value,
      info_index_typeinfo, h]
  · intro h1
    refine ⟨?_, ?_, ?_, ?_, ?_, ?_, ?_, ?_, ?_⟩ <;>
    simp [info_index, info_index_type, info_index_is, info_index_name,
      info_index_fullname, info_index_base, info_index_registered, info_index_callable,
      info_index_signal, info_index_function, info_index_enum, info_index_value,
      info_index_typeinfo, INFOS, h1]
  · intro h1
    simp [info_index, info_index_type, info_index_is, info_index_name,
      info_index_fullname, info_index_base, info_index_registered, info_index_callable,
      info_index_signal, info_index_function, info_index_enum, info_index_value,
      info_index_typeinfo, INFOS, h1]
  · intro h1 h2 h3
    simp [info_index, info_index_type, info_index_is, info_index_name,
      info_index_fullname, info_index_base, info_index_registered, info_index_callable,
      info_index_signal, info_index_function, info_index_enum, info_index_value,
      info_index_typeinfo, INFOS, h1, h2, h3]
  · intro h1 h2 h3
    simp [info_index, info_index_type, info_index_is, info_index_name,
      info_index_fullname, info_index_base, info_index_registered, info_index_callable,
      info_index_signal, info_index_function, info_index_enum, info_index_value,
      info_index_typeinfo, INFOS, h1, h2, h3]
  · intro h1 h2 h3 h4
    simp [info_index, info_index_type, info_index_is, info_index_name,
      info_index_fullname, info_index_base, info_index_registered, info_index_callable,
      info_index_signal, info_index_function, info_index_enum, info_index_value,
      info_index_typeinfo, INFOS, h1, h2, h3, h4]
  · intro h1 h2
    refine ⟨?_, ?_, ?_⟩ <;>
    simp [info_index, info_index_type, info_index_is, info_index_name,
      info_index_fullname, info_index_base, info_index_registered, info_index_callable,
      info_index_signal, info_index_function, info_index_enum, info_index_value,
      info_index_typeinfo, INFOS, h1, h2]
  · intro h1
    refine ⟨?_, ?_, ?_, ?_, ?_, ?_⟩ <;>
    simp [info_index, info_index_type, info_index_is, info_index_name,
      info_index_fullname, info_index_base, info_index_registered, info_index_callable,
      info_index_signal, info_index_function, info_index_enum, info_index_value,
      info_index_typeinfo, INFOS, h1]
  · intro h1
    refine ⟨?_, ?_, ?_, ?_, ?_, ?_⟩ <;>
    simp [info_index, info_index_type, info_index_is, info_index_name,
      info_index_fullname, info_index_base, info_index_registered, info_index_callable,
      info_index_signal, info_index_function, info_index_enum, info_index_value,
      info_index_typeinfo, INFOS, h1]
  · intro h1
    simp [info_index, info_index_type, info_index_is, info_index_name,
      info_index_fullname, info_index_base, info_index_registered, info_index_callable,
      info_index_signal, info_index_function, info_index_enum, info_index_value,
      info_index_typeinfo, INFOS, h1]
  · intro h1
    refine ⟨?_, ?_⟩ <;>
    simp [info_index, info_index_type, info_index_is, info_index_name,
      info_index_fullname, info_index_base, info_index_registered, info_index_callable,
      info_index_signal, info_index_function, info_index_enum, info_index_value,
      info_index_typeinfo, INFOS, h1]
  · intro h1
    refine ⟨?_, ?_⟩ <;>
    simp [info_index, info_index_type, info_index_is, info_index_name,
      info_index_fullname, info_index_base, info_index_registered, info_index_callable,
      info_index_signal, info_index_function, info_index_enum, info_index_value,
      info_index_typeinfo, INFOS, h1]

/-- The soft miss of C5 on the demo library: the function record 1 is no arg,
constant, property or field, and its `typeinfo` reads as nil. -/
theorem info_index_soft_miss_witness :
    info_index demoRepo 1 "typeinfo" = ⟨Outcome.nil, []⟩ :=
  (info_index_soft_miss demoRepo 1).2.2.2.1 (by decide) (by decide) (by decide) (by decide)

/-- C6, as stated, fails: `lgi_gi_info_new` wraps the demo function record 1
in a proxy, the library reports the kind `function` for it, and the property
`kind` of the proxy reads as nil, not as the string `function`. -/
theorem info_index_kind_reads_nil :
    (lgi_gi_info_new demoRepo (some 1)).out = Outcome.prim (LuaPrim.info 1) ∧
    demoRepo.g_base_info_get_type 1 = GIInfoType.FUNCTION ∧
    info_index demoRepo 1 "kind" = ⟨Outcome.nil, []⟩ ∧
    (info_index demoRepo 1 "kind").out ≠ Outcome.prim (LuaPrim.string "function") := by
  decide

/-- C6 (amended): the kind of a wrapped handle is read through the property
`type`.  For every library and every handle that `lgi_gi_info_new` turns into
a proxy, the property `type` reads as the string of the `switch` for the type
tag the library reports, with no error.  That string is defined for each of
the nineteen kinds, they are the strings listed here, and two kinds with the
same string are equal, so the kind is recovered from the property. -/
theorem info_index_type_roundtrip (L : GIRepository) :
    (∀ h, (lgi_gi_info_new L (some h)).out = Outcome.prim (LuaPrim.info h) →
      ∃ s, info_type_string (L.g_base_info_get_type h) = some s ∧
        info_index L h "type" = ⟨Outcome.prim (LuaPrim.string s), []⟩) ∧
    info_kinds.map info_type_string =
      [some "function", some "callback", some "struct", some "boxed", some "enum",
       some "flags", some "object", some "interface", some "constant",
       some "error_domain", some "union", some "value", some "signal", some "vfunc",
       some "property", some "field", some "arg", some "type", some "unresolved"] ∧
    (∀ t, t ≠ GIInfoType.INVALID → t ∈ info_kinds) ∧
    (∀ t1 t2 s, info_type_string t1 = some s → info_type_string t2 = some s → t1 = t2) := by
  refine ⟨?_, by decide, ?_, ?_⟩
  · intro h hw
    have ht : L.g_base_info_get_type h ≠ GIInfoType.INVALID := by
      intro hinv
      rw [lgi_gi_info_new_invalid L h hinv] at hw
      revert hw
      simp [Outcome.nil, Outcome.prim]
    cases hk : L.g_base_info_get_type h <;>
      first
      | exact absurd hk ht
      | exact ⟨_, rfl, by simp [info_index, info_index_type, hk, info_type_string, push]⟩
  · intro t ht
    cases t <;> first | exact absurd rfl ht | decide
  · intro t1 t2 s h1 h2
    cases t1 <;> cases t2 <;> simp [info_type_string] at h1 h2 <;>
      first
      | rfl
      | (subst h1; revert h2; decide)

/-- The round trip of C6 (amended) on the demo library: the function record 1
is wrapped, and the property `type` of the proxy reads as some string of the
`switch` for its type tag. -/
theorem info_index_type_roundtrip_witness :
    ∃ s, info_type_string (demoRepo.g_base_info_get_type 1) = some s ∧
      info_index demoRepo 1 "type" = ⟨Outcome.prim (LuaPrim.string s), []⟩ :=
  (info_index_type_roundtrip demoRepo).1 1 (by decide)

/-! ## The namespace: `namespace_len` and `namespace_index` -/

/-- C7, as stated, fails on three dependency lists of the demo library.  The
list of `Demo` holds `my-lib-1.0`, which is `my-lib`, the separator, `1.0`:
the table has no entry for `my-lib`, it maps `my` to `lib-1.0`, because the
string is split at its first separator.  The list of `Twice` holds `GLib-1.0`
and `GLib-2.0`: the table maps `GLib` to `2.0` only.  The list of `Bare`
holds `GLib`, a string without separator, on which the length handed to
`lua_pushlstring` is not defined. -/
theorem dependencies_split_at_first_separator :
    "my-lib" ++ "-" ++ "1.0" ∈ ["GLib-2.0", "my-lib-1.0"] ∧
    namespace_index demoRepo "Demo" (LuaArg.string "dependencies") =
      ⟨Outcome.value (LuaValue.table
        [(LuaPrim.string "GLib", LuaPrim.string "2.0"),
         (LuaPrim.string "my", LuaPrim.string "lib-1.0")]), []⟩ ∧
    LuaTable.get
      [(LuaPrim.string "GLib", LuaPrim.string "2.0"),
       (LuaPrim.string "my", LuaPrim.string "lib-1.0")] (LuaPrim.string "my-lib") = none ∧
    "GLib" ++ "-" ++ "1.0" ∈ ["GLib-1.0", "GLib-2.0"] ∧
    namespace_index demoRepo "Twice" (LuaArg.string "dependencies") =
      ⟨Outcome.value (LuaValue.table
        [(LuaPrim.string "GLib", LuaPrim.string "2.0")]), []⟩ ∧
    namespace_index demoRepo "Bare" (LuaArg.string "dependencies") =
      ⟨Outcome.undefined, []⟩ := by
  decide

/-- C7 (amended): the `dependencies` of a namespace, for every library and
every namespace.  When the library reports no dependency list the result is
nil.  When it reports a list every string of which contains the separator
`-`, the result is a table; each string is split at its first separator into
key and value; and for each listed string `name ++ "-" ++ version` whose
`name` contains no separator, the table maps `name` to `version`, provided
the list gives no other version for `name`. -/
theorem namespace_index_dependencies (L : GIRepository) (ns : String) :
    (L.g_irepository_get_dependencies ns = none →
      namespace_index L ns (LuaArg.string "dependencies") = ⟨Outcome.nil, []⟩) ∧
    (∀ deps, L.g_irepository_get_dependencies ns = some deps →
      (∀ d ∈ deps, '-' ∈ d.data) →
      ∃ t, namespace_index L ns (LuaArg.string "dependencies") =
          ⟨Outcome.value (LuaValue.table t), []⟩ ∧
        ∀ name version, '-' ∉ name.data → name ++ "-" ++ version ∈ deps →
          (∀ v2, name ++ "-" ++ v2 ∈ deps → v2 = version) →
          LuaTable.get t (LuaPrim.string name) = some (LuaPrim.string version)) := by
  constructor
  · intro h
    simp [namespace_index, h]
  · intro deps h hsep
    obtain ⟨t, ht⟩ := deps_defined deps hsep []
    refine ⟨t, by simp [namespace_index, h, ht], ?_⟩
    intro name version hname hmem huniq
    exact deps_get_listed name version hname deps [] t ht hmem huniq

/-- The dependencies of C7 (amended) on the namespace `Demo` of the demo
library, whose list is `GLib-2.0`, `my-lib-1.0`: the result is a table that
maps `GLib` to `2.0`. -/
theorem namespace_index_dependencies_witness :
    ∃ t, namespace_index demoRepo "Demo" (LuaArg.string "dependencies") =
        ⟨Outcome.value (LuaValue.table t), []⟩ ∧
      LuaTable.get t (LuaPrim.string "GLib") = some (LuaPrim.string "2.0") := by
  obtain ⟨t, ht, hget⟩ := (namespace_index_dependencies demoRepo "Demo").2
    ["GLib-2.0", "my-lib-1.0"] (by decide) (by decide)
  refine ⟨t, ht, hget "GLib" "2.0" (by decide) (by decide) ?_⟩
  intro v2 hv2
  have hd : ("GLib" ++ "-" ++ v2).data = "GLib-".data ++ v2.data := by
    simp [String.data_append]
  rcases List.mem_cons.1 hv2 with e | e
  · have e2 := congrArg String.data e
    rw [hd] at e2
    have e3 : v2.data = "2.0".data := by
      have : "GLib-2.0".data = "GLib-".data ++ "2.0".data := by decide
      rw [this] at e2
      exact List.append_cancel_left e2
    exact String.ext e3
  · rcases List.mem_cons.1 e with e' | e'
    · have e2 := congrArg String.data e'
      rw [hd] at e2
      have h3 : ("GLib-".data ++ v2.data).take 5 = "my-lib-1.0".data.take 5 := by rw [e2]
      rw [List.take_left' (by decide)] at h3
      exact absurd h3 (by decide)
    · simp at e'

/-- C10, as stated, fails at values outside `gint`.  The namespace `Huge` of
the demo library reports `2^31 - 1` symbols: `namespace_len` is `-2^31`, the
`gint` sum, not the count plus one.  In the namespace `Demo` the host index
`2^32 + 1` reads the wrap of the symbol at position 0, while the library's
answer for the position `2^32` is `NULL`, whose wrap is nil: the position the
library is asked for is the `gint` value of the index minus one. -/
theorem namespace_len_and_index_outside_gint :
    demoRepo.g_irepository_get_n_infos "Huge" = 2147483647 ∧
    namespace_len demoRepo "Huge" =
      ⟨Outcome.prim (LuaPrim.number (-2147483648)), []⟩ ∧
    namespace_len demoRepo "Huge" ≠
      ⟨Outcome.prim (LuaPrim.number (demoRepo.g_irepository_get_n_infos "Huge" + 1)), []⟩ ∧
    (namespace_index demoRepo "Demo" (LuaArg.number (4294967296 + 1))).out =
      Outcome.prim (LuaPrim.info 1) ∧
    (lgi_gi_info_new demoRepo
      (demoRepo.g_irepository_get_info "Demo" (4294967296 + 1 - 1))).out = Outcome.nil ∧
    (namespace_index demoRepo "Demo" (LuaArg.number (4294967296 + 1))).out ≠
      (lgi_gi_info_new demoRepo
        (demoRepo.g_irepository_get_info "Demo" (4294967296 + 1 - 1))).out := by
  decide

/-- C10 (amended): the length and the indexed read of a namespace, for every
library and every namespace, on the values of type `gint`.  When the
library's symbol count plus one is a `gint`, `namespace_len` is that count
plus one, returned without any reference-count event.  When the host index
`i` minus one is a `gint`, the indexed read asks the library for the top-level
position `i - 1` and returns the wrap of what the library returns, after the
one reference the library handed over with it; so the host index 1 reads the
library's first top-level symbol, position 0. -/
theorem namespace_len_and_index (L : GIRepository) (ns : String) :
    (isGint (L.g_irepository_get_n_infos ns + 1) →
      namespace_len L ns =
        ⟨Outcome.prim (LuaPrim.number (L.g_irepository_get_n_infos ns + 1)), []⟩) ∧
    (∀ i, isGint (i - 1) →
      (namespace_index L ns (LuaArg.number i)).out =
        (lgi_gi_info_new L (L.g_irepository_get_info ns (i - 1))).out ∧
      namespace_index L ns (LuaArg.number i) =
        new_obtained L (L.g_irepository_get_info ns (i - 1))) ∧
    (namespace_index L ns (LuaArg.number 1)).out =
      (lgi_gi_info_new L (L.g_irepository_get_info ns 0)).out := by
  have hgen : ∀ k, namespace_index L ns (LuaArg.number k) =
      new_obtained L (L.g_irepository_get_info ns (toGint (k - 1))) := by
    intro k
    simp only [namespace_index]
  refine ⟨?_, ?_, ?_⟩
  · intro hc
    simp only [namespace_len, toGint_of_isGint hc]
  · intro i hi
    rw [hgen, toGint_of_isGint hi]
    exact ⟨new_obtained_out L _, rfl⟩
  · rw [hgen, new_obtained_out]
    rfl

/-- The length and the indexed read of C10 (amended) on the namespace `Demo`
of the demo library, which has five symbols: the length is six, and the host
index 3 reads the wrap of the symbol at position 2. -/
theorem namespace_len_and_index_witness :
    namespace_len demoRepo "Demo" =
        ⟨Outcome.prim (LuaPrim.number (demoRepo.g_irepository_get_n_infos "Demo" + 1)), []⟩ ∧
    (namespace_index demoRepo "Demo" (LuaArg.number 3)).out =
      (lgi_gi_info_new demoRepo (demoRepo.g_irepository_get_info "Demo" (3 - 1))).out :=
  ⟨(namespace_len_and_index demoRepo "Demo").1 (by decide),
   ((namespace_len_and_index demoRepo "Demo").2.1 3 (by decide)).1⟩

end Lgi
